import Mathlib

/-!
# Verification of the schoolCBT student exam core

Shallow embedding of the proctoring (integrity) state machine, the exam
session submission path with its scoring computation, the sheets
submission pipeline, and the crash-resume snapshot check, translated from
`src/student/exam-integrity.js` (v1.2.0), `src/student/script.js` and
`src/student/sheets-submitter.js`.

JS numbers that carry marks/percentages are modelled as `ℚ`; millisecond
clock readings (`Date.now()`) as `ℕ`; JS `undefined`/`null` as `Option`;
a JS callback that may throw is modelled by a `Bool` (`true` = the
callback throws when invoked).
-/

namespace SchoolCBT

/-! ## Violation monitor (`src/student/exam-integrity.js`, v1.2.0) -/

/-- Violation types logged by the monitor. -/
inductive VType where
  | tabSwitch
  | windowBlur
  | fullscreenExit
deriving DecidableEq, Repr

/-- One entry of `_state.violationLog`: `{ type, timestamp }`.  The code
stores `new Date().toISOString()`; we keep the millisecond clock value. -/
structure VEntry where
  vtype : VType
  timestamp : Nat
deriving DecidableEq, Repr

/-- `_config` of the integrity module (the DOM `containerElement` is
omitted; it never influences the recording logic). -/
structure MonConfig where
  autoSubmitOnViolation : Bool
  violationThreshold : Nat
  enableWarnings : Bool
  strictMode : Bool
deriving DecidableEq, Repr

/-- `_state` of the integrity module. -/
structure MonState where
  violations : Nat
  violationLog : List VEntry
  isActive : Bool
  lastViolationTime : Nat
  isReentering : Bool
  isSubmitting : Bool
deriving DecidableEq, Repr

/-- `_callbacks`: each registered callback is abstracted by whether it
throws when invoked (`true` = throws). -/
structure Callbacks where
  onViolation : List Bool
  onAutoSubmit : List Bool
deriving DecidableEq, Repr

/-- The state installed by `init()`. -/
def initMonState : MonState :=
  { violations := 0, violationLog := [], isActive := true,
    lastViolationTime := 0, isReentering := false, isSubmitting := false }

/-- `_callbacks.onViolation.forEach(cb => cb(...))` — no per-callback
`try/catch`: returns (number of callbacks invoked, whether an exception
propagated out of the `forEach`).  A throwing callback stops the loop. -/
def notifyNoCatch : List Bool → Nat × Bool
  | [] => (0, false)
  | throws :: rest =>
    if throws then (1, true)
    else
      let n := notifyNoCatch rest
      (n.1 + 1, n.2)

/-- `_callbacks.onAutoSubmit.forEach(cb => { try { cb() } catch ... })` —
each callback runs inside its own `try/catch`, so every callback is
invoked and no exception escapes. -/
def notifyWithCatch : List Bool → Nat × Bool
  | [] => (0, false)
  | _ :: rest =>
    let n := notifyWithCatch rest
    (n.1 + 1, false)

/-- Result of `_triggerAutoSubmit`. -/
structure TriggerResult where
  st : MonState
  fired : Bool
  autoInvoked : Nat
  exn : Bool
deriving DecidableEq, Repr

/-- `_triggerAutoSubmit()` (lines 441–457): guard on
`!isActive || isSubmitting`; otherwise set `isSubmitting`, clear
`isActive`, then invoke every auto-submit callback, each inside its own
`try/catch`. -/
def triggerAutoSubmit (cbs : Callbacks) (st : MonState) : TriggerResult :=
  if !st.isActive || st.isSubmitting then
    { st := st, fired := false, autoInvoked := 0, exn := false }
  else
    let st1 := { st with isSubmitting := true, isActive := false }
    let n := notifyWithCatch cbs.onAutoSubmit
    { st := st1, fired := true, autoInvoked := n.1, exn := n.2 }

/-- Synchronous part of `_enforceFullscreen()` (lines 345–353): skip if
already re-entering or submitting, else set `isReentering` and schedule
the delayed re-entry attempt.  Returns (new state, timeout scheduled?). -/
def enforceFullscreen (st : MonState) : MonState × Bool :=
  if st.isReentering || st.isSubmitting then (st, false)
  else ({ st with isReentering := true }, true)

/-- The body of the `setTimeout` in `_enforceFullscreen` (lines 355–381)
together with the resolution of the `requestFullscreen` promise:
whichever branch is taken (inactive/submitting, no fullscreen API,
re-entry succeeded, re-entry failed) the flag `isReentering` is cleared. -/
def reentryTimeoutBody (st : MonState) (hasRfs : Bool) (success : Bool) : MonState :=
  if st.isActive && !st.isSubmitting then
    if hasRfs then
      if success then { st with isReentering := false }
      else { st with isReentering := false }
    else { st with isReentering := false }
  else { st with isReentering := false }

/-- Everything observable about one call of `_logViolation`. -/
structure LogOutcome where
  st : MonState
  recorded : Bool
  vInvoked : Nat
  exn : Bool
  reentryScheduled : Bool
  autoFired : Bool
  autoInvoked : Nat
deriving DecidableEq, Repr

/-- Outcome of a handler invocation that did not record a violation. -/
def noOutcome (st : MonState) : LogOutcome :=
  { st := st, recorded := false, vInvoked := 0, exn := false,
    reentryScheduled := false, autoFired := false, autoInvoked := 0 }

/-- `_logViolation(type)` (lines 388–436): early return unless active and
not submitting; skip `fullscreen-exit` while re-entering; debounce
(`now - lastViolationTime < 1000`); otherwise record the violation,
show the warning (UI only), notify the violation subscribers (no
`try/catch` — a throwing subscriber aborts the handler), then for a
fullscreen exit below the threshold start the re-entry remediation, and
finally trigger auto-submit when the threshold is reached. -/
def logViolation (cfg : MonConfig) (cbs : Callbacks) (vtype : VType)
    (now : Nat) (st : MonState) : LogOutcome :=
  if !st.isActive || st.isSubmitting then noOutcome st
  else if st.isReentering && vtype == VType.fullscreenExit then noOutcome st
  else if now < st.lastViolationTime + 1000 then noOutcome st
  else
    let st1 : MonState :=
      { st with lastViolationTime := now,
                violations := st.violations + 1,
                violationLog := st.violationLog ++ [⟨vtype, now⟩] }
    let thresholdExceeded : Bool := cfg.violationThreshold ≤ st1.violations
    -- `_showWarning` only raises a blocking alert; no monitor state change.
    let n := notifyNoCatch cbs.onViolation
    if n.2 then
      { st := st1, recorded := true, vInvoked := n.1, exn := true,
        reentryScheduled := false, autoFired := false, autoInvoked := 0 }
    else
      let efs :=
        if vtype == VType.fullscreenExit && !thresholdExceeded then
          enforceFullscreen st1
        else (st1, false)
      if cfg.autoSubmitOnViolation && thresholdExceeded then
        let tr := triggerAutoSubmit cbs efs.1
        { st := tr.st, recorded := true, vInvoked := n.1, exn := tr.exn,
          reentryScheduled := efs.2, autoFired := tr.fired,
          autoInvoked := tr.autoInvoked }
      else
        { st := efs.1, recorded := true, vInvoked := n.1, exn := false,
          reentryScheduled := efs.2, autoFired := false, autoInvoked := 0 }

/-- Raw environment signals and deferred continuations delivered to the
monitor's listeners (`_initListeners`, lines 480–533), each carrying the
value of `Date.now()` at delivery. -/
inductive MEvent where
  | visibilityChange (hidden : Bool) (t : Nat)
  | windowBlur (hidden : Bool) (t : Nat)
  | fullscreenChange (inFullscreen : Bool) (t : Nat)
  | reentryComplete (hasRfs : Bool) (success : Bool) (t : Nat)
deriving DecidableEq, Repr

/-- Arrival time of a signal. -/
def MEvent.time : MEvent → Nat
  | .visibilityChange _ t => t
  | .windowBlur _ t => t
  | .fullscreenChange _ t => t
  | .reentryComplete _ _ t => t

/-- Dispatch of one event through the installed listeners:
`visibilitychange` logs a tab switch when the document became hidden,
`blur` logs a window blur when the document is still visible,
`fullscreenchange` logs a fullscreen exit unless inactive, re-entering or
submitting (and clears `isReentering` when fullscreen was re-entered),
and `reentryComplete` is the remediation timeout running to completion. -/
def handleEvent (cfg : MonConfig) (cbs : Callbacks) (e : MEvent)
    (st : MonState) : LogOutcome :=
  match e with
  | .visibilityChange hidden t =>
    if hidden && !st.isSubmitting then logViolation cfg cbs .tabSwitch t st
    else noOutcome st
  | .windowBlur hidden t =>
    if !hidden && !st.isSubmitting then logViolation cfg cbs .windowBlur t st
    else noOutcome st
  | .fullscreenChange inFullscreen t =>
    if !inFullscreen && st.isActive && !st.isReentering && !st.isSubmitting then
      logViolation cfg cbs .fullscreenExit t st
    else if inFullscreen && st.isReentering then
      noOutcome { st with isReentering := false }
    else noOutcome st
  | .reentryComplete hasRfs success _ => noOutcome (reentryTimeoutBody st hasRfs success)

/-- Final monitor state after a sequence of events. -/
def runMon (cfg : MonConfig) (cbs : Callbacks) : MonState → List MEvent → MonState
  | st, [] => st
  | st, e :: es => runMon cfg cbs (handleEvent cfg cbs e st).st es

/-- Per-event outcomes along a sequence of events. -/
def runOutcomes (cfg : MonConfig) (cbs : Callbacks) :
    MonState → List MEvent → List LogOutcome
  | _, [] => []
  | st, e :: es =>
    handleEvent cfg cbs e st :: runOutcomes cfg cbs (handleEvent cfg cbs e st).st es

/-- `getViolations()`: defensive copy of count and ledger. -/
def getViolations (st : MonState) : Nat × List VEntry :=
  (st.violations, st.violationLog)

/-! ## Exam session, scoring and submission (`src/student/script.js`) -/

/-- `state.student` (the `class` field is rendered as `className`). -/
structure Student where
  name : String
  seatNumber : String
  className : String
  subject : String
deriving DecidableEq, Repr

/-- `exam.metadata` fields used by the submission path. -/
structure ExamMetadata where
  title : String
  subject : String
  term : String
  academicYear : String
deriving DecidableEq, Repr

/-- `exam.settings` fields used by the submission path (`none` models a
missing field). -/
structure ExamSettings where
  duration : Option Int
  passMark : Option ℚ
  autoSubmitOnViolation : Bool
  violationThreshold : Option Nat
  strictMode : Bool
  showResults : Bool
deriving DecidableEq, Repr

/-- A question as consumed by the scoring loop: `questionId`,
`correctAnswer`, and the optional `marks` field. -/
structure Question where
  questionId : String
  correctAnswer : String
  marks : Option ℚ
deriving DecidableEq, Repr

/-- The loaded exam object. -/
structure Exam where
  examId : String
  metadata : ExamMetadata
  settings : ExamSettings
  questions : List Question
deriving DecidableEq, Repr

/-- The mutable session `state` (DOM/timer handles omitted). -/
structure SessionState where
  student : Student
  exam : Exam
  currentQIndex : Nat
  answers : List (String × String)
  timeLeft : Int
  isSubmitted : Bool
  startedAt : Option String
  submittedAt : Option String
  durationAllowed : Int
deriving DecidableEq, Repr

/-- `state.answers[q.questionId] || null`: a missing key and a falsy
(empty-string) value both become `null`. -/
def jsAnswerLookup (answers : List (String × String)) (qid : String) :
    Option String :=
  match answers.lookup qid with
  | some s => if s = "" then none else some s
  | none => none

/-- `q.marks || 1`: only a missing field or a falsy (zero) value falls
back to `1`; any other number — including a negative one — is kept. -/
def jsMarksOr1 (m : Option ℚ) : ℚ :=
  match m with
  | none => 1
  | some v => if v = 0 then 1 else v

/-- `state.exam.settings.passMark || 50`. -/
def jsPassMarkOr50 (m : Option ℚ) : ℚ :=
  match m with
  | none => 50
  | some v => if v = 0 then 50 else v

/-- `Math.round(x)`: round half toward positive infinity. -/
def jsRound (x : ℚ) : ℤ := ⌊x + 1 / 2⌋

/-- One element of the result's `answers` array. -/
structure AnswerOutcome where
  questionId : String
  selectedOption : Option String
  isCorrect : Bool
  marksAwarded : ℚ
deriving DecidableEq, Repr

/-- The accumulators threaded through the scoring `map` in `submitExam`
(lines 584–613): `score`, `totalObtainable`, the three counters, and the
`answersArray` built so far. -/
structure ScoreAcc where
  score : ℚ
  totalObtainable : ℚ
  correctCount : Nat
  wrongCount : Nat
  unansweredCount : Nat
  outcomes : List AnswerOutcome
deriving DecidableEq, Repr

/-- The body of the scoring `map` for one question (lines 590–613). -/
def scoreStep (answers : List (String × String)) (acc : ScoreAcc)
    (q : Question) : ScoreAcc :=
  let selected := jsAnswerLookup answers q.questionId
  let marks := jsMarksOr1 q.marks
  let isCorrect : Bool := selected == some q.correctAnswer
  let marksAwarded := if isCorrect then marks else 0
  let acc1 := { acc with totalObtainable := acc.totalObtainable + marks }
  let acc2 :=
    if selected = none then
      { acc1 with unansweredCount := acc1.unansweredCount + 1 }
    else if isCorrect then
      { acc1 with correctCount := acc1.correctCount + 1,
                  score := acc1.score + marks }
    else
      { acc1 with wrongCount := acc1.wrongCount + 1 }
  { acc2 with outcomes := acc2.outcomes ++
      [{ questionId := q.questionId, selectedOption := selected,
         isCorrect := isCorrect, marksAwarded := marksAwarded }] }

/-- The whole scoring loop over `state.exam.questions`. -/
def runScoring (questions : List Question) (answers : List (String × String)) :
    ScoreAcc :=
  questions.foldl (scoreStep answers)
    { score := 0, totalObtainable := 0, correctCount := 0, wrongCount := 0,
      unansweredCount := 0, outcomes := [] }

/-- `result.student` snapshot. -/
structure ResStudent where
  fullName : String
  registrationNumber : String
  className : String
deriving DecidableEq, Repr

/-- `result.exam` reference subset. -/
structure ResExam where
  examId : String
  title : String
  subject : String
  term : String
  academicYear : String
deriving DecidableEq, Repr

/-- `result.scoring`. -/
structure ScoringSummary where
  totalQuestions : Nat
  attemptedQuestions : Nat
  correctAnswers : Nat
  wrongAnswers : Nat
  unansweredQuestions : Nat
  totalMarks : ℚ
  obtainedMarks : ℚ
  percentage : ℚ
  passed : Bool
deriving DecidableEq, Repr

/-- `result.timing`. -/
structure ResTiming where
  startedAt : Option String
  submittedAt : Option String
  durationAllowed : Int
  durationUsed : Int
deriving DecidableEq, Repr

/-- The Result document built by `submitExam` (lines 640–680);
`submissionType`/`clientTimestamp` render `result.submission`, the last
two fields render `result.integrity`. -/
structure ResultObject where
  submissionId : String
  version : String
  student : ResStudent
  exam : ResExam
  answers : List AnswerOutcome
  scoring : ScoringSummary
  timing : ResTiming
  submissionType : String
  clientTimestamp : String
  violations : Nat
  violationLog : List VEntry
deriving DecidableEq, Repr

/-- Observable effects of one `submitExam` call. -/
structure SubmitEffects where
  st : SessionState
  result : Option ResultObject
  finalizeCalls : Nat
  snapshotCleared : Bool
  timerCancelled : Bool
  monitorDestroyed : Bool
deriving DecidableEq, Repr

/-- `submitExam(isAuto, submissionType = 'manual')` (lines 566–713).
`hasSubmitter`/`hasIntegrity` model the `typeof SheetsSubmitter` and
`typeof IntegrityModule` guards; `newSubmissionId` is the value returned
by `SheetsSubmitter.generateSubmissionId()`; `nowIso`/`nowMs` are the
clock readings; `mon` is the integrity module's state at submit time.
If `state.isSubmitted` is already set the call returns immediately with
no effect; otherwise it latches the flag, cancels the timer, erases the
persisted snapshot, scores the exam, builds the Result and hands it to
`SheetsSubmitter.submit` (one finalize call). -/
def submitExam (hasSubmitter hasIntegrity : Bool) (newSubmissionId : String)
    (nowIso : String) (nowMs : Nat) (mon : MonState) (isAuto : Bool)
    (submissionType : String) (st : SessionState) : SubmitEffects :=
  if st.isSubmitted then
    { st := st, result := none, finalizeCalls := 0, snapshotCleared := false,
      timerCancelled := false, monitorDestroyed := false }
  else
    let st1 := { st with isSubmitted := true, submittedAt := some nowIso }
    let finalSubmissionType :=
      if isAuto && submissionType == "manual" then ("auto-timeout")
      else submissionType
    let acc := runScoring st.exam.questions st.answers
    let percentage : ℚ :=
      if 0 < acc.totalObtainable then
        (jsRound (acc.score / acc.totalObtainable * 10000) : ℚ) / 100
      else 0
    let passMark := jsPassMarkOr50 st.exam.settings.passMark
    let passed : Bool := passMark ≤ percentage
    let durationUsed : Int := ⌈((st.durationAllowed * 60 - st.timeLeft : ℤ) : ℚ) / 60⌉
    let integrity := if hasIntegrity then getViolations mon else (0, [])
    let r : ResultObject :=
      { submissionId :=
          if hasSubmitter then newSubmissionId else ("SUB-") ++ toString nowMs,
        version := "1.0.0",
        student :=
          { fullName := st.student.name,
            registrationNumber := st.student.seatNumber,
            className := st.student.className },
        exam :=
          { examId := st.exam.examId, title := st.exam.metadata.title,
            subject := st.exam.metadata.subject, term := st.exam.metadata.term,
            academicYear := st.exam.metadata.academicYear },
        answers := acc.outcomes,
        scoring :=
          { totalQuestions := st.exam.questions.length,
            attemptedQuestions := st.exam.questions.length - acc.unansweredCount,
            correctAnswers := acc.correctCount,
            wrongAnswers := acc.wrongCount,
            unansweredQuestions := acc.unansweredCount,
            totalMarks := acc.totalObtainable,
            obtainedMarks := acc.score,
            percentage := percentage,
            passed := passed },
        timing :=
          { startedAt := st.startedAt, submittedAt := st1.submittedAt,
            durationAllowed := st.durationAllowed,
            durationUsed := durationUsed },
        submissionType := finalSubmissionType,
        clientTimestamp := nowIso,
        violations := integrity.1,
        violationLog := integrity.2 }
    { st := st1, result := some r,
      finalizeCalls := if hasSubmitter then 1 else 0,
      snapshotCleared := true, timerCancelled := true,
      monitorDestroyed := hasIntegrity }

/-! ## Sheets submission pipeline (`src/student/sheets-submitter.js`) -/

namespace SheetsSubmitter

/-- `_config` of the submitter. -/
structure SubmitterConfig where
  webhookUrl : String
  maxRetries : Nat
  retryDelay : Nat
deriving DecidableEq, Repr

/-- Outcome object resolved by `submit` (lines 54–101). -/
structure SubmitOutcome where
  success : Bool
  submissionId : String
  timestamp : String
  error : Option String
deriving DecidableEq, Repr

/-- The retry loop of `submit` (lines 66–93).  `fetchResult i` is the
observable outcome of attempt number `i` (`Except.error msg` = the
`fetch` threw with message `msg`); `remaining` attempts are left,
`attempt` is the next attempt number and `lastError` the last caught
message.  Returns (did an attempt succeed, last error seen). -/
def runAttempts (fetchResult : Nat → Except String Unit) :
    Nat → Nat → Option String → Bool × Option String
  | 0, _, lastError => (false, lastError)
  | remaining + 1, attempt, lastError =>
    match fetchResult attempt with
    | .ok _ => (true, lastError)
    | .error e => runAttempts fetchResult remaining (attempt + 1) (some e)

/-- `submit(resultData)`: with no webhook URL resolve with a descriptive
local-only failure; otherwise run up to `maxRetries` delivery attempts
(an attempt that does not observably error counts as success) and on
exhaustion resolve with `success: false` and the last error message.
Every path resolves with a `SubmitOutcome`; nothing throws. -/
def submit (cfg : SubmitterConfig) (fetchResult : Nat → Except String Unit)
    (resultSubmissionId : String) (nowIso : String) : SubmitOutcome :=
  if cfg.webhookUrl = "" then
    { success := false, submissionId := resultSubmissionId,
      timestamp := nowIso,
      error := some ("Webhook URL not configured. Results saved locally only.") }
  else
    match runAttempts fetchResult cfg.maxRetries 1 none with
    | (true, _) =>
      { success := true, submissionId := resultSubmissionId,
        timestamp := nowIso, error := none }
    | (false, lastError) =>
      { success := false, submissionId := resultSubmissionId,
        timestamp := nowIso,
        error := some ("Network error after (" ++ toString cfg.maxRetries ++
          ") attempts: " ++ lastError.getD ("Unknown error")) }

end SheetsSubmitter

/-- The `.then` handler `submitExam` attaches to `SheetsSubmitter.submit`
(script.js lines 684–693): on a failed outcome the Result is persisted to
`localStorage` under the key `exam_result_<submissionId>` (the stored
value is the JSON-serialized Result, modelled here by the Result itself).
Returns the list of storage writes performed. -/
def handleSheetsResponse (resp : SheetsSubmitter.SubmitOutcome)
    (resultObject : ResultObject) : List (String × ResultObject) :=
  if resp.success = false then
    [("exam_result_" ++ resultObject.submissionId, resultObject)]
  else []

/-! ## Crash-resume snapshot check (`script.js`, `initResumeDetection`) -/

/-- The `exam` member of a parsed snapshot payload: `examId` is `none`
when the property is missing. -/
structure RawExamRef where
  examId : Option String
deriving DecidableEq, Repr

/-- The `student` member of a parsed snapshot payload: `name` is `none`
when the property is missing or not a string
(`typeof parsed.student.name === 'string'`). -/
structure RawStudent where
  name : Option String
deriving DecidableEq, Repr

/-- A parsed snapshot payload; only the members inspected by the validity
check are modelled (`none` = the member is missing/falsy). -/
structure RawPayload where
  exam : Option RawExamRef
  student : Option RawStudent
deriving DecidableEq, Repr

/-- JS truthiness of an optional string property: absent is falsy, the
empty string is falsy, every other string is truthy. -/
def truthyStr : Option String → Bool
  | none => false
  | some s => s ≠ ""

/-- The `isValidSession` check (lines 249–255): the payload, its `exam`
with a truthy `examId`, its `student` with a string `name` whose trimmed
length is positive. -/
def isValidSession (p : RawPayload) : Bool :=
  (match p.exam with
   | none => false
   | some ex => truthyStr ex.examId) &&
  (match p.student with
   | none => false
   | some stu =>
     match stu.name with
     | none => false
     | some n => decide (0 < n.trim.length))

/-- What `initResumeDetection` decides to do with the stored slot. -/
inductive ResumeAction where
  | noStored
  | offerResume (p : RawPayload)
  | discardCorrupted
deriving DecidableEq, Repr

/-- `initResumeDetection()` (lines 242–299): nothing stored → no action;
a payload that fails to parse (`JSON.parse` throws) or fails
`isValidSession` → the stored snapshot is cleared
(`clearActiveState()`) and no resume is offered; a valid payload → the
non-blocking resume offer.  `stored = some none` models a stored string
that fails to parse. -/
def initResumeDetection (stored : Option (Option RawPayload)) : ResumeAction :=
  match stored with
  | none => .noStored
  | some none => .discardCorrupted
  | some (some p) =>
    if isValidSession p then .offerResume p else .discardCorrupted

/-- Whether the decision clears the persisted snapshot slot. -/
def storageCleared : ResumeAction → Bool
  | .discardCorrupted => true
  | _ => false

/-- Whether the decision offers to restore session state. -/
def resumeOffered : ResumeAction → Bool
  | .offerResume _ => true
  | _ => false

/-- Reading of the claim: the payload carries an exam id (an `exam`
member with a truthy `examId`). -/
def hasExamId (p : RawPayload) : Bool :=
  match p.exam with
  | none => false
  | some ex => truthyStr ex.examId

/-- Reading of the claim: the payload carries a student name that is a
string and non-empty after trimming. -/
def hasTrimmedName (p : RawPayload) : Bool :=
  match p.student with
  | none => false
  | some stu =>
    match stu.name with
    | none => false
    | some n => decide (0 < n.trim.length)

/-! ## `generateSubmissionId` (`sheets-submitter.js`, lines 34–47) -/

/-- Fuel-indexed decimal-digit expansion (most significant first); the
fuel only bounds the recursion depth and is irrelevant as long as it
exceeds the number of digits. -/
def decDigitsAux : Nat → Nat → List Char
  | 0, _ => []
  | fuel + 1, n =>
    if n < 10 then [Nat.digitChar n]
    else decDigitsAux fuel (n / 10) ++ [Nat.digitChar (n % 10)]

/-- The decimal digits of a natural number, most significant first — the
value of `Number.prototype.toString()` for a non-negative integer. -/
def decDigits (n : Nat) : List Char := decDigitsAux (n + 1) n

/-- `n.toString()` for a non-negative integer. -/
def jsNatToString (n : Nat) : String := String.mk (decDigits n)

/-- `s.padStart(2, '0')`. -/
def padStart2 (s : String) : String :=
  if 2 ≤ s.length then s
  else String.mk (List.replicate (2 - s.length) '0' ++ s.data)

/-- The alphabet used for the random part. -/
def subIdChars : String := "ABCDEFGHIJKLMNOPQRSTUVWXYZ0123456789"

/-- `s.charAt(i)`: the one-character string at index `i`, or the empty
string when out of range. -/
def jsCharAt (s : String) (i : Nat) : String :=
  match s.data[i]? with
  | some c => String.mk [c]
  | none => ""

/-- The index `Math.floor(Math.random() * chars.length)` drawn from the
`i`-th call of `Math.random()` (whose value is `rs i ∈ [0, 1)`). -/
def randIndex (rs : Nat → ℚ) (i : Nat) : Nat :=
  (⌊rs i * 36⌋).toNat

/-- The 6-character random part built by the `for` loop. -/
def randomPart (rs : Nat → ℚ) : String :=
  (List.range 6).foldl (fun acc i => acc ++ jsCharAt subIdChars (randIndex rs i)) ""

/-- The `datePart`: `getFullYear().toString()` followed by the
1-based month and the day of month, each padded to two digits. -/
def datePart (year monthIdx day : Nat) : String :=
  jsNatToString year ++ padStart2 (jsNatToString (monthIdx + 1)) ++
    padStart2 (jsNatToString day)

/-- `generateSubmissionId()`: `SUB-` + datePart + `-` + 6 random
characters.  `year`/`monthIdx`/`day` are the fields of `new Date()`
(`monthIdx` is 0-based as in JS); `rs` is the `Math.random()` stream. -/
def generateSubmissionId (year monthIdx day : Nat) (rs : Nat → ℚ) : String :=
  "SUB-" ++ datePart year monthIdx day ++ "-" ++ randomPart rs

/-! ## Lemmas about callback notification -/

theorem notifyWithCatch_spec (l : List Bool) : notifyWithCatch l = (l.length, false) := by
  induction l with
  | nil => rfl
  | cons a t ih => simp [notifyWithCatch, ih]

theorem notifyNoCatch_nothrow (l : List Bool) (h : ∀ b ∈ l, b = false) :
    notifyNoCatch l = (l.length, false) := by
  induction l with
  | nil => rfl
  | cons a t ih =>
    have ha : a = false := h a (by simp)
    have ht : ∀ b ∈ t, b = false := fun b hb => h b (by simp [hb])
    simp [notifyNoCatch, ha, ih ht]

theorem notifyNoCatch_exn (l : List Bool) :
    (notifyNoCatch l).2 = true ↔ true ∈ l := by
  induction l with
  | nil => simp [notifyNoCatch]
  | cons a t ih =>
    cases a with
    | false => simpa [notifyNoCatch] using ih
    | true => simp [notifyNoCatch]

theorem notifyNoCatch_invoked (l : List Bool) :
    (notifyNoCatch l).1 =
      if true ∈ l then l.indexOf true + 1 else l.length := by
  induction l with
  | nil => simp [notifyNoCatch]
  | cons a t ih =>
    cases a with
    | false =>
      by_cases ht : true ∈ t <;>
        simp [notifyNoCatch, ih, ht, List.indexOf_cons]
    | true => simp [notifyNoCatch]


/-- Helper: the guard under which `_logViolation` records a violation. -/
def recordCond (v : VType) (now : Nat) (st : MonState) : Bool :=
  st.isActive && !st.isSubmitting &&
    !(st.isReentering && v == VType.fullscreenExit) &&
    !(now < st.lastViolationTime + 1000)

/-- Helper: the guard under which `_logViolation` reaches and fires
`_triggerAutoSubmit`. -/
def fireCond (cfg : MonConfig) (cbs : Callbacks) (v : VType) (now : Nat)
    (st : MonState) : Bool :=
  recordCond v now st && !(notifyNoCatch cbs.onViolation).2 &&
    cfg.autoSubmitOnViolation &&
    decide (cfg.violationThreshold ≤ st.violations + 1)

/-- Helper: the guard under which `_logViolation` schedules the
fullscreen re-entry remediation. -/
def schedCond (cfg : MonConfig) (cbs : Callbacks) (v : VType) (now : Nat)
    (st : MonState) : Bool :=
  recordCond v now st && !(notifyNoCatch cbs.onViolation).2 &&
    (v == VType.fullscreenExit) &&
    !(decide (cfg.violationThreshold ≤ st.violations + 1))

theorem lv_recorded (cfg : MonConfig) (cbs : Callbacks) (v : VType) (now : Nat)
    (st : MonState) :
    (logViolation cfg cbs v now st).recorded = recordCond v now st := by
  simp only [logViolation, recordCond, triggerAutoSubmit, enforceFullscreen]
  repeat' split
  all_goals simp_all [noOutcome]
  all_goals
    cases hA : st.isActive <;> cases hS : st.isSubmitting <;>
      cases hR : st.isReentering <;> simp_all

theorem lv_not_recorded_eq (cfg : MonConfig) (cbs : Callbacks) (v : VType) (now : Nat)
    (st : MonState) (h : recordCond v now st = false) :
    logViolation cfg cbs v now st = noOutcome st := by
  simp only [recordCond] at h
  simp only [logViolation]
  repeat' split
  all_goals simp_all [noOutcome]

theorem lv_violations (cfg : MonConfig) (cbs : Callbacks) (v : VType) (now : Nat)
    (st : MonState) :
    (logViolation cfg cbs v now st).st.violations
      = st.violations + (if recordCond v now st then 1 else 0) := by
  simp only [logViolation, recordCond, triggerAutoSubmit, enforceFullscreen]
  repeat' split
  all_goals simp_all [noOutcome]
  all_goals
    cases hA : st.isActive <;> cases hS : st.isSubmitting <;>
      cases hR : st.isReentering <;> simp_all

theorem lv_log (cfg : MonConfig) (cbs : Callbacks) (v : VType) (now : Nat)
    (st : MonState) :
    (logViolation cfg cbs v now st).st.violationLog
      = st.violationLog ++ (if recordCond v now st then [⟨v, now⟩] else []) := by
  simp only [logViolation, recordCond, triggerAutoSubmit, enforceFullscreen]
  repeat' split
  all_goals simp_all [noOutcome]
  all_goals
    cases hA : st.isActive <;> cases hS : st.isSubmitting <;>
      cases hR : st.isReentering <;> simp_all

theorem lv_last (cfg : MonConfig) (cbs : Callbacks) (v : VType) (now : Nat)
    (st : MonState) :
    (logViolation cfg cbs v now st).st.lastViolationTime
      = (if recordCond v now st then now else st.lastViolationTime) := by
  simp only [logViolation, recordCond, triggerAutoSubmit, enforceFullscreen]
  repeat' split
  all_goals simp_all [noOutcome]
  all_goals
    cases hA : st.isActive <;> cases hS : st.isSubmitting <;>
      cases hR : st.isReentering <;> simp_all

theorem lv_vInvoked (cfg : MonConfig) (cbs : Callbacks) (v : VType) (now : Nat)
    (st : MonState) :
    (logViolation cfg cbs v now st).vInvoked
      = (if recordCond v now st then (notifyNoCatch cbs.onViolation).1 else 0) := by
  simp only [logViolation, recordCond, triggerAutoSubmit, enforceFullscreen]
  repeat' split
  all_goals simp_all [noOutcome]
  all_goals
    cases hA : st.isActive <;> cases hS : st.isSubmitting <;>
      cases hR : st.isReentering <;> simp_all

theorem lv_exn (cfg : MonConfig) (cbs : Callbacks) (v : VType) (now : Nat)
    (st : MonState) :
    (logViolation cfg cbs v now st).exn
      = (recordCond v now st && (notifyNoCatch cbs.onViolation).2) := by
  simp only [logViolation, recordCond, triggerAutoSubmit, enforceFullscreen,
    notifyWithCatch_spec]
  repeat' split
  all_goals simp_all [noOutcome, notifyWithCatch_spec]
  all_goals
    cases hA : st.isActive <;> cases hS : st.isSubmitting <;>
      cases hR : st.isReentering <;> simp_all

theorem lv_fire_pos (cfg : MonConfig) (cbs : Callbacks) (v : VType) (now : Nat)
    (st : MonState) (hf : fireCond cfg cbs v now st = true) :
    (logViolation cfg cbs v now st).autoFired = true ∧
    (logViolation cfg cbs v now st).autoInvoked = cbs.onAutoSubmit.length ∧
    (logViolation cfg cbs v now st).exn = false ∧
    (logViolation cfg cbs v now st).st.isSubmitting = true ∧
    (logViolation cfg cbs v now st).st.isActive = false := by
  rw [fireCond] at hf
  simp only [Bool.and_eq_true] at hf
  obtain ⟨⟨⟨hrc, hX⟩, hAU⟩, hTE⟩ := hf
  rw [recordCond] at hrc
  simp only [Bool.and_eq_true] at hrc
  obtain ⟨⟨⟨hA, hS⟩, hRE⟩, hDB⟩ := hrc
  rw [Bool.not_eq_true'] at hS hRE hDB hX
  rw [decide_eq_false_iff_not] at hDB
  rw [decide_eq_true_eq] at hTE
  simp [logViolation, triggerAutoSubmit, enforceFullscreen, notifyWithCatch_spec,
    hA, hS, hRE, hDB, hX, hAU, hTE]

theorem lv_sched_pos (cfg : MonConfig) (cbs : Callbacks) (v : VType) (now : Nat)
    (st : MonState) (hs : schedCond cfg cbs v now st = true) :
    (logViolation cfg cbs v now st).reentryScheduled = true ∧
    (logViolation cfg cbs v now st).st.isReentering = true := by
  rw [schedCond] at hs
  simp only [Bool.and_eq_true] at hs
  obtain ⟨⟨⟨hrc, hX⟩, hFS⟩, hTE⟩ := hs
  rw [recordCond] at hrc
  simp only [Bool.and_eq_true] at hrc
  obtain ⟨⟨⟨hA, hS⟩, hRE⟩, hDB⟩ := hrc
  rw [Bool.not_eq_true'] at hS hRE hDB hX hTE
  rw [decide_eq_false_iff_not] at hDB
  rw [decide_eq_false_iff_not] at hTE
  rw [hFS] at hRE
  simp only [Bool.and_true] at hRE
  simp [logViolation, triggerAutoSubmit, enforceFullscreen,
    hA, hS, hRE, hDB, hX, hFS, hTE]

theorem lv_exn_branch (cfg : MonConfig) (cbs : Callbacks) (v : VType) (now : Nat)
    (st : MonState) (h1 : recordCond v now st = true)
    (h2 : (notifyNoCatch cbs.onViolation).2 = true) :
    (logViolation cfg cbs v now st).autoFired = false ∧
    (logViolation cfg cbs v now st).autoInvoked = 0 ∧
    (logViolation cfg cbs v now st).reentryScheduled = false := by
  rw [recordCond] at h1
  simp only [Bool.and_eq_true] at h1
  obtain ⟨⟨⟨hA, hS⟩, hRE⟩, hDB⟩ := h1
  rw [Bool.not_eq_true'] at hS hRE hDB
  rw [decide_eq_false_iff_not] at hDB
  simp [logViolation, triggerAutoSubmit, enforceFullscreen,
    hA, hS, hRE, hDB, h2]

theorem lv_fired_imp (cfg : MonConfig) (cbs : Callbacks) (v : VType) (now : Nat)
    (st : MonState) (h : (logViolation cfg cbs v now st).autoFired = true) :
    fireCond cfg cbs v now st = true := by
  simp only [logViolation, triggerAutoSubmit, enforceFullscreen] at h
  simp only [fireCond, recordCond]
  repeat' split at h
  all_goals simp_all [noOutcome]
  all_goals
    cases hA : st.isActive <;> cases hS : st.isSubmitting <;>
      cases hR : st.isReentering <;> simp_all

theorem recordCond_true_iff (v : VType) (now : Nat) (st : MonState) :
    recordCond v now st = true ↔
      st.isActive = true ∧ st.isSubmitting = false ∧
      ¬(st.isReentering = true ∧ v = VType.fullscreenExit) ∧
      st.lastViolationTime + 1000 ≤ now := by
  simp only [recordCond, Bool.and_eq_true, Bool.not_eq_true',
    Bool.and_eq_false_iff, decide_eq_false_iff_not, Nat.not_lt,
    Bool.not_eq_true, beq_iff_eq, beq_eq_false_iff_ne]
  constructor
  · rintro ⟨⟨⟨hA, hS⟩, hRE⟩, hDB⟩
    refine ⟨hA, hS, ?_, hDB⟩
    rintro ⟨h1, h2⟩
    rcases hRE with h | h
    · simp [h1] at h
    · exact h h2
  · rintro ⟨hA, hS, hRE, hDB⟩
    refine ⟨⟨⟨hA, hS⟩, ?_⟩, hDB⟩
    by_cases h1 : st.isReentering = true
    · right
      intro h2
      exact hRE ⟨h1, h2⟩
    · left
      simpa using h1

theorem reentryTimeoutBody_eq (st : MonState) (hasRfs success : Bool) :
    reentryTimeoutBody st hasRfs success = { st with isReentering := false } := by
  unfold reentryTimeoutBody
  repeat' split
  all_goals rfl

theorem he_cases (cfg : MonConfig) (cbs : Callbacks) (e : MEvent) (st : MonState) :
    handleEvent cfg cbs e st = noOutcome st ∨
    handleEvent cfg cbs e st = noOutcome { st with isReentering := false } ∨
    (∃ v, handleEvent cfg cbs e st = logViolation cfg cbs v e.time st) := by
  cases e with
  | visibilityChange hidden t =>
    simp only [handleEvent, MEvent.time]
    split
    · exact Or.inr (Or.inr ⟨_, rfl⟩)
    · exact Or.inl rfl
  | windowBlur hidden t =>
    simp only [handleEvent, MEvent.time]
    split
    · exact Or.inr (Or.inr ⟨_, rfl⟩)
    · exact Or.inl rfl
  | fullscreenChange inFullscreen t =>
    simp only [handleEvent, MEvent.time]
    split
    · exact Or.inr (Or.inr ⟨_, rfl⟩)
    · split
      · exact Or.inr (Or.inl rfl)
      · exact Or.inl rfl
  | reentryComplete hasRfs success t =>
    refine Or.inr (Or.inl ?_)
    simp only [handleEvent, reentryTimeoutBody_eq]

theorem he_pre_submitting (cfg : MonConfig) (cbs : Callbacks) (e : MEvent)
    (st : MonState) (h : st.isSubmitting = true) :
    (handleEvent cfg cbs e st).recorded = false ∧
    (handleEvent cfg cbs e st).autoFired = false ∧
    (handleEvent cfg cbs e st).autoInvoked = 0 ∧
    (handleEvent cfg cbs e st).st.isSubmitting = true ∧
    (handleEvent cfg cbs e st).st.violations = st.violations ∧
    (handleEvent cfg cbs e st).st.violationLog = st.violationLog := by
  rcases he_cases cfg cbs e st with h1 | h1 | ⟨v, h1⟩ <;> rw [h1]
  · simp [noOutcome, h]
  · simp [noOutcome, h]
  · have hrc : recordCond v e.time st = false := by
      rw [recordCond, h]
      simp
    rw [lv_not_recorded_eq cfg cbs v e.time st hrc]
    simp [noOutcome, h]

theorem he_not_recorded (cfg : MonConfig) (cbs : Callbacks) (e : MEvent)
    (st : MonState) (h : (handleEvent cfg cbs e st).recorded = false) :
    (handleEvent cfg cbs e st).st.violations = st.violations ∧
    (handleEvent cfg cbs e st).st.violationLog = st.violationLog ∧
    (handleEvent cfg cbs e st).st.lastViolationTime = st.lastViolationTime ∧
    (handleEvent cfg cbs e st).st.isSubmitting = st.isSubmitting ∧
    (handleEvent cfg cbs e st).autoFired = false ∧
    (handleEvent cfg cbs e st).autoInvoked = 0 := by
  rcases he_cases cfg cbs e st with h1 | h1 | ⟨v, h1⟩ <;> rw [h1] <;> rw [h1] at h
  · simp [noOutcome]
  · simp [noOutcome]
  · rw [lv_recorded] at h
    rw [lv_not_recorded_eq cfg cbs v e.time st h]
    simp [noOutcome]

theorem he_recorded (cfg : MonConfig) (cbs : Callbacks) (e : MEvent)
    (st : MonState) (h : (handleEvent cfg cbs e st).recorded = true) :
    st.isActive = true ∧ st.isSubmitting = false ∧
    st.lastViolationTime + 1000 ≤ e.time ∧
    (handleEvent cfg cbs e st).st.violations = st.violations + 1 ∧
    (handleEvent cfg cbs e st).st.lastViolationTime = e.time := by
  rcases he_cases cfg cbs e st with h1 | h1 | ⟨v, h1⟩ <;> rw [h1] <;> rw [h1] at h
  · simp [noOutcome] at h
  · simp [noOutcome] at h
  · rw [lv_recorded] at h
    obtain ⟨hA, hS, _, hDB⟩ := (recordCond_true_iff v e.time st).1 h
    refine ⟨hA, hS, hDB, ?_, ?_⟩
    · rw [lv_violations, h]
      simp
    · rw [lv_last, h]
      simp

theorem he_fired (cfg : MonConfig) (cbs : Callbacks) (e : MEvent)
    (st : MonState) (h : (handleEvent cfg cbs e st).autoFired = true) :
    (handleEvent cfg cbs e st).st.isSubmitting = true ∧
    (handleEvent cfg cbs e st).autoInvoked = cbs.onAutoSubmit.length ∧
    cfg.autoSubmitOnViolation = true ∧
    cfg.violationThreshold ≤ (handleEvent cfg cbs e st).st.violations := by
  rcases he_cases cfg cbs e st with h1 | h1 | ⟨v, h1⟩ <;> rw [h1] <;> rw [h1] at h
  · simp [noOutcome] at h
  · simp [noOutcome] at h
  · have hfc := lv_fired_imp cfg cbs v e.time st h
    obtain ⟨hF, hI, _, hSub, _⟩ := lv_fire_pos cfg cbs v e.time st hfc
    have hrc : recordCond v e.time st = true := by
      rw [fireCond] at hfc
      simp only [Bool.and_eq_true] at hfc
      exact hfc.1.1.1
    have hAU : cfg.autoSubmitOnViolation = true := by
      rw [fireCond] at hfc
      simp only [Bool.and_eq_true] at hfc
      exact hfc.1.2
    have hTE : cfg.violationThreshold ≤ st.violations + 1 := by
      rw [fireCond] at hfc
      simp only [Bool.and_eq_true, decide_eq_true_eq] at hfc
      exact hfc.2
    refine ⟨hSub, hI, hAU, ?_⟩
    rw [lv_violations, hrc]
    simpa using hTE

theorem he_last_mono (cfg : MonConfig) (cbs : Callbacks) (e : MEvent)
    (st : MonState) :
    st.lastViolationTime ≤ (handleEvent cfg cbs e st).st.lastViolationTime := by
  cases hrec : (handleEvent cfg cbs e st).recorded
  · exact le_of_eq (he_not_recorded cfg cbs e st hrec).2.2.1.symm
  · obtain ⟨_, _, hDB, _, hL⟩ := he_recorded cfg cbs e st hrec
    omega

theorem runMon_last_mono (cfg : MonConfig) (cbs : Callbacks) :
    ∀ (es : List MEvent) (st : MonState),
      st.lastViolationTime ≤ (runMon cfg cbs st es).lastViolationTime := by
  intro es
  induction es with
  | nil => intro st; exact le_refl _
  | cons e es ih =>
    intro st
    exact le_trans (he_last_mono cfg cbs e st) (ih _)

theorem runMon_submitting (cfg : MonConfig) (cbs : Callbacks) :
    ∀ (es : List MEvent) (st : MonState), st.isSubmitting = true →
      (runMon cfg cbs st es).isSubmitting = true := by
  intro es
  induction es with
  | nil => intro st h; exact h
  | cons e es ih =>
    intro st h
    exact ih _ (he_pre_submitting cfg cbs e st h).2.2.2.1

theorem runOutcomes_submitting_no_fire (cfg : MonConfig) (cbs : Callbacks) :
    ∀ (es : List MEvent) (st : MonState), st.isSubmitting = true →
      ∀ o ∈ runOutcomes cfg cbs st es, o.autoFired = false := by
  intro es
  induction es with
  | nil => intro st _ o ho; simp [runOutcomes] at ho
  | cons e es ih =>
    intro st h o ho
    simp only [runOutcomes, List.mem_cons] at ho
    rcases ho with ho | ho
    · rw [ho]
      exact (he_pre_submitting cfg cbs e st h).2.1
    · exact ih _ (he_pre_submitting cfg cbs e st h).2.2.2.1 o ho

theorem runOutcomes_fired_count (cfg : MonConfig) (cbs : Callbacks) :
    ∀ (es : List MEvent) (st : MonState),
      (runOutcomes cfg cbs st es).countP (fun o => o.autoFired) ≤ 1 := by
  intro es
  induction es with
  | nil => intro st; simp [runOutcomes]
  | cons e es ih =>
    intro st
    simp only [runOutcomes, List.countP_cons]
    cases hf : (handleEvent cfg cbs e st).autoFired
    · simpa [hf] using ih ((handleEvent cfg cbs e st).st)
    · have hsub := (he_fired cfg cbs e st hf).1
      have hzero : (runOutcomes cfg cbs (handleEvent cfg cbs e st).st es).countP
          (fun o => o.autoFired) = 0 := by
        rw [List.countP_eq_zero]
        intro o ho
        simp [runOutcomes_submitting_no_fire cfg cbs es _ hsub o ho]
      simp [hf, hzero]

/-! ## Claim theorems for the violation monitor -/

/-- The property claimed by C1, over a session started by `init()`
(state `initMonState`): (1) along any event trace the auto-submit
trigger fires at most once; (2) at the step whose recording makes the
violation count reach the threshold, the trigger fires and every
registered auto-submit callback is invoked, and every later event —
after arbitrary further events — records nothing and invokes no
auto-submit callback. -/
def AutoSubmitOnceProp (cfg : MonConfig) (cbs : Callbacks) : Prop :=
  (∀ evs : List MEvent,
    (runOutcomes cfg cbs initMonState evs).countP (fun o => o.autoFired) ≤ 1) ∧
  (∀ (evs : List MEvent) (e : MEvent),
    (runMon cfg cbs initMonState evs).violations < cfg.violationThreshold →
    cfg.violationThreshold ≤
      (handleEvent cfg cbs e (runMon cfg cbs initMonState evs)).st.violations →
    (handleEvent cfg cbs e (runMon cfg cbs initMonState evs)).autoFired = true ∧
    (handleEvent cfg cbs e (runMon cfg cbs initMonState evs)).autoInvoked
      = cbs.onAutoSubmit.length ∧
    (∀ (evs2 : List MEvent) (e2 : MEvent),
      (handleEvent cfg cbs e2 (runMon cfg cbs
        (handleEvent cfg cbs e (runMon cfg cbs initMonState evs)).st evs2)).recorded
        = false ∧
      (handleEvent cfg cbs e2 (runMon cfg cbs
        (handleEvent cfg cbs e (runMon cfg cbs initMonState evs)).st evs2)).autoInvoked
        = 0))

/-- C1: for every monitor session initialized with
`autoSubmitOnViolation = true` and `violationThreshold ≥ 1` (and whose
registered violation callbacks do not themselves throw), when the count
of recorded violations reaches the threshold the registered auto-submit
callbacks are invoked exactly once, and no violation is recorded by any
later raw signal for the remainder of the session. -/
theorem c1_threshold_auto_submit (cfg : MonConfig) (cbs : Callbacks)
    (hauto : cfg.autoSubmitOnViolation = true)
    (hth : 1 ≤ cfg.violationThreshold)
    (hcb : ∀ b ∈ cbs.onViolation, b = false) :
    AutoSubmitOnceProp cfg cbs := by
  constructor
  · exact fun evs => runOutcomes_fired_count cfg cbs evs initMonState
  · intro evs e hlt hge
    have hrec : (handleEvent cfg cbs e (runMon cfg cbs initMonState evs)).recorded
        = true := by
      cases hr : (handleEvent cfg cbs e (runMon cfg cbs initMonState evs)).recorded
      · have := (he_not_recorded cfg cbs e _ hr).1
        omega
      · rfl
    rcases he_cases cfg cbs e (runMon cfg cbs initMonState evs) with
      heq | heq | ⟨v, heq⟩
    · rw [heq] at hrec
      simp [noOutcome] at hrec
    · rw [heq] at hrec
      simp [noOutcome] at hrec
    · rw [heq] at hrec hge ⊢
      have hrc : recordCond v e.time (runMon cfg cbs initMonState evs) = true := by
        rw [lv_recorded] at hrec
        exact hrec
      have hn2 : (notifyNoCatch cbs.onViolation).2 = false := by
        rw [notifyNoCatch_nothrow cbs.onViolation hcb]
      have hvio := lv_violations cfg cbs v e.time (runMon cfg cbs initMonState evs)
      rw [hrc] at hvio
      simp at hvio
      have hte : cfg.violationThreshold
          ≤ (runMon cfg cbs initMonState evs).violations + 1 := by
        omega
      have hfc : fireCond cfg cbs v e.time (runMon cfg cbs initMonState evs)
          = true := by
        rw [fireCond]
        simp [hrc, hn2, hauto, hte]
      obtain ⟨hF, hI, _, hSub, _⟩ :=
        lv_fire_pos cfg cbs v e.time (runMon cfg cbs initMonState evs) hfc
      refine ⟨hF, hI, ?_⟩
      intro evs2 e2
      have hsub2 : (runMon cfg cbs
          (logViolation cfg cbs v e.time (runMon cfg cbs initMonState evs)).st
          evs2).isSubmitting = true :=
        runMon_submitting cfg cbs evs2 _ hSub
      exact ⟨(he_pre_submitting cfg cbs e2 _ hsub2).1,
        (he_pre_submitting cfg cbs e2 _ hsub2).2.2.1⟩

/-- Witness for C1 at a concrete configuration: threshold 1,
auto-submit on, one non-throwing callback of each kind. -/
theorem c1_threshold_auto_submit_witness :
    (MonConfig.mk true 1 true false).autoSubmitOnViolation = true ∧
    1 ≤ (MonConfig.mk true 1 true false).violationThreshold ∧
    (∀ b ∈ (Callbacks.mk [false] [false]).onViolation, b = false) ∧
    AutoSubmitOnceProp ⟨true, 1, true, false⟩ ⟨[false], [false]⟩ :=
  ⟨rfl, by decide, by decide,
    c1_threshold_auto_submit ⟨true, 1, true, false⟩ ⟨[false], [false]⟩
      rfl (by decide) (by decide)⟩

/-- C3: two raw signals delivered less than 1000 ms apart (with any
other events in between) yield at most one recorded violation; when the
first records, the second is debounced and leaves the count and the
ledger unchanged. -/
theorem c3_debounce (cfg : MonConfig) (cbs : Callbacks) (st : MonState)
    (e1 : MEvent) (mid : List MEvent) (e2 : MEvent)
    (hlt : e2.time < e1.time + 1000) :
    (¬((handleEvent cfg cbs e1 st).recorded = true ∧
       (handleEvent cfg cbs e2
         (runMon cfg cbs (handleEvent cfg cbs e1 st).st mid)).recorded = true)) ∧
    ((handleEvent cfg cbs e1 st).recorded = true →
      (handleEvent cfg cbs e2
        (runMon cfg cbs (handleEvent cfg cbs e1 st).st mid)).recorded = false ∧
      (handleEvent cfg cbs e2
        (runMon cfg cbs (handleEvent cfg cbs e1 st).st mid)).st.violations
        = (runMon cfg cbs (handleEvent cfg cbs e1 st).st mid).violations ∧
      (handleEvent cfg cbs e2
        (runMon cfg cbs (handleEvent cfg cbs e1 st).st mid)).st.violationLog
        = (runMon cfg cbs (handleEvent cfg cbs e1 st).st mid).violationLog) := by
  have main : (handleEvent cfg cbs e1 st).recorded = true →
      (handleEvent cfg cbs e2
        (runMon cfg cbs (handleEvent cfg cbs e1 st).st mid)).recorded = false := by
    intro h1
    cases h2 : (handleEvent cfg cbs e2
        (runMon cfg cbs (handleEvent cfg cbs e1 st).st mid)).recorded
    · rfl
    · exfalso
      have hlast1 := (he_recorded cfg cbs e1 st h1).2.2.2.2
      have hmono := runMon_last_mono cfg cbs mid (handleEvent cfg cbs e1 st).st
      rw [hlast1] at hmono
      have hdeb := (he_recorded cfg cbs e2 _ h2).2.2.1
      omega
  constructor
  · rintro ⟨h1, h2⟩
    rw [main h1] at h2
    exact Bool.false_ne_true h2
  · intro h1
    have h2 := main h1
    obtain ⟨hv, hl, _⟩ := he_not_recorded cfg cbs e2 _ h2
    exact ⟨h2, hv, hl⟩

/-- Witness for C3: a tab switch at t = 2000 ms followed by a window
blur at t = 2500 ms on a fresh monitor. -/
theorem c3_debounce_witness :
    ((MEvent.windowBlur false 2500).time < (MEvent.visibilityChange true 2000).time + 1000) ∧
    (¬((handleEvent ⟨true, 3, true, false⟩ ⟨[], []⟩ (MEvent.visibilityChange true 2000)
          initMonState).recorded = true ∧
       (handleEvent ⟨true, 3, true, false⟩ ⟨[], []⟩ (MEvent.windowBlur false 2500)
         (runMon ⟨true, 3, true, false⟩ ⟨[], []⟩
           (handleEvent ⟨true, 3, true, false⟩ ⟨[], []⟩
             (MEvent.visibilityChange true 2000) initMonState).st [])).recorded = true)) :=
  ⟨by decide,
    (c3_debounce ⟨true, 3, true, false⟩ ⟨[], []⟩ initMonState
      (MEvent.visibilityChange true 2000) [] (MEvent.windowBlur false 2500)
      (by decide)).1⟩

/-- C7: (a) a recorded fullscreen-exit violation whose new count is
below the threshold sets the `reentering` flag and schedules the
delayed fullscreen re-entry (assuming the violation subscribers do not
throw, since a thrown subscriber exception aborts the handler);
(b) the delayed re-entry attempt clears the flag whatever its outcome;
(c) while `reentering` is set, a fullscreen-exit signal is not recorded
by `_logViolation` and the monitor state is unchanged; (d) likewise at
the `fullscreenchange` listener level, count and ledger are unchanged. -/
theorem c7_reentry_remediation :
    (∀ (cfg : MonConfig) (cbs : Callbacks) (now : Nat) (st : MonState),
      (∀ b ∈ cbs.onViolation, b = false) →
      (logViolation cfg cbs VType.fullscreenExit now st).recorded = true →
      (logViolation cfg cbs VType.fullscreenExit now st).st.violations
        < cfg.violationThreshold →
      (logViolation cfg cbs VType.fullscreenExit now st).st.isReentering = true ∧
      (logViolation cfg cbs VType.fullscreenExit now st).reentryScheduled = true) ∧
    (∀ (st : MonState) (hasRfs success : Bool),
      (reentryTimeoutBody st hasRfs success).isReentering = false) ∧
    (∀ (cfg : MonConfig) (cbs : Callbacks) (now : Nat) (st : MonState),
      st.isReentering = true →
      (logViolation cfg cbs VType.fullscreenExit now st).recorded = false ∧
      (logViolation cfg cbs VType.fullscreenExit now st).st = st) ∧
    (∀ (cfg : MonConfig) (cbs : Callbacks) (t : Nat) (st : MonState),
      st.isReentering = true →
      (handleEvent cfg cbs (MEvent.fullscreenChange false t) st).recorded = false ∧
      (handleEvent cfg cbs (MEvent.fullscreenChange false t) st).st.violations
        = st.violations ∧
      (handleEvent cfg cbs (MEvent.fullscreenChange false t) st).st.violationLog
        = st.violationLog) := by
  refine ⟨?_, ?_, ?_, ?_⟩
  · intro cfg cbs now st hcb hrec hlt
    have hrc : recordCond VType.fullscreenExit now st = true := by
      rw [lv_recorded] at hrec
      exact hrec
    have hn2 : (notifyNoCatch cbs.onViolation).2 = false := by
      rw [notifyNoCatch_nothrow cbs.onViolation hcb]
    have hvio := lv_violations cfg cbs VType.fullscreenExit now st
    rw [hrc] at hvio
    simp at hvio
    rw [hvio] at hlt
    have hnte : ¬(cfg.violationThreshold ≤ st.violations + 1) := by omega
    have hsc : schedCond cfg cbs VType.fullscreenExit now st = true := by
      rw [schedCond]
      simp [hrc, hn2, hnte]
    obtain ⟨hS, hR⟩ := lv_sched_pos cfg cbs VType.fullscreenExit now st hsc
    exact ⟨hR, hS⟩
  · intro st hasRfs success
    rw [reentryTimeoutBody_eq]
  · intro cfg cbs now st h
    have hrc : recordCond VType.fullscreenExit now st = false := by
      rw [recordCond, h]
      simp
    rw [lv_not_recorded_eq cfg cbs VType.fullscreenExit now st hrc]
    exact ⟨rfl, rfl⟩
  · intro cfg cbs t st h
    simp [handleEvent, h, noOutcome]

/-- Witness for C7: a fresh monitor (threshold 3) records a
fullscreen exit at t = 2000 ms and enters remediation; the timeout
clears the flag; while re-entering, a fullscreen exit at t = 4000 ms is
ignored. -/
theorem c7_reentry_remediation_witness :
    ((logViolation ⟨true, 3, true, false⟩ ⟨[], []⟩ VType.fullscreenExit 2000
        initMonState).recorded = true) ∧
    ((logViolation ⟨true, 3, true, false⟩ ⟨[], []⟩ VType.fullscreenExit 2000
        initMonState).st.isReentering = true ∧
     (logViolation ⟨true, 3, true, false⟩ ⟨[], []⟩ VType.fullscreenExit 2000
        initMonState).reentryScheduled = true) ∧
    ((reentryTimeoutBody { initMonState with isReentering := true } true
        false).isReentering = false) ∧
    ((logViolation ⟨true, 3, true, false⟩ ⟨[], []⟩ VType.fullscreenExit 4000
        { initMonState with isReentering := true }).recorded = false) :=
  ⟨by decide,
    c7_reentry_remediation.1 ⟨true, 3, true, false⟩ ⟨[], []⟩ 2000 initMonState
      (by decide) (by decide) (by decide),
    c7_reentry_remediation.2.1 _ _ _,
    (c7_reentry_remediation.2.2.1 ⟨true, 3, true, false⟩ ⟨[], []⟩ 4000
      { initMonState with isReentering := true } rfl).1⟩

/-! ## Lemmas about `submitExam` -/

theorem submitExam_already (hs hi : Bool) (sid iso : String) (ms : Nat)
    (mon : MonState) (a : Bool) (t : String) (st : SessionState)
    (h : st.isSubmitted = true) :
    submitExam hs hi sid iso ms mon a t st =
      { st := st, result := none, finalizeCalls := 0, snapshotCleared := false,
        timerCancelled := false, monitorDestroyed := false } := by
  simp [submitExam, h]

theorem submitExam_fresh_st (hs hi : Bool) (sid iso : String) (ms : Nat)
    (mon : MonState) (a : Bool) (t : String) (st : SessionState)
    (h : st.isSubmitted = false) :
    (submitExam hs hi sid iso ms mon a t st).st
      = { st with isSubmitted := true, submittedAt := some iso } := by
  simp [submitExam, h]

theorem submitExam_fresh_result_isSome (hs hi : Bool) (sid iso : String) (ms : Nat)
    (mon : MonState) (a : Bool) (t : String) (st : SessionState)
    (h : st.isSubmitted = false) :
    (submitExam hs hi sid iso ms mon a t st).result.isSome = true := by
  simp [submitExam, h]

theorem submitExam_fresh_finalize (hs hi : Bool) (sid iso : String) (ms : Nat)
    (mon : MonState) (a : Bool) (t : String) (st : SessionState)
    (h : st.isSubmitted = false) :
    (submitExam hs hi sid iso ms mon a t st).finalizeCalls
      = (if hs then 1 else 0) := by
  simp [submitExam, h]

/-- C2: on a session not yet submitted, the first `submitExam` call
builds a Result, makes exactly one finalize (`SheetsSubmitter.submit`)
call when the sink module is present, and flips `isSubmitted` from
`false` to `true`; a second call with arbitrary arguments is a no-op:
no Result, no finalize call, state unchanged. -/
theorem c2_submit_idempotent (hs hi : Bool) (sid1 sid2 iso1 iso2 : String)
    (ms1 ms2 : Nat) (mon1 mon2 : MonState) (a1 a2 : Bool) (t1 t2 : String)
    (st : SessionState) (h : st.isSubmitted = false) :
    (submitExam hs hi sid1 iso1 ms1 mon1 a1 t1 st).result.isSome = true ∧
    (submitExam hs hi sid1 iso1 ms1 mon1 a1 t1 st).finalizeCalls
      = (if hs then 1 else 0) ∧
    (submitExam hs hi sid1 iso1 ms1 mon1 a1 t1 st).st.isSubmitted = true ∧
    (submitExam hs hi sid2 iso2 ms2 mon2 a2 t2
        (submitExam hs hi sid1 iso1 ms1 mon1 a1 t1 st).st).result = none ∧
    (submitExam hs hi sid2 iso2 ms2 mon2 a2 t2
        (submitExam hs hi sid1 iso1 ms1 mon1 a1 t1 st).st).finalizeCalls = 0 ∧
    (submitExam hs hi sid2 iso2 ms2 mon2 a2 t2
        (submitExam hs hi sid1 iso1 ms1 mon1 a1 t1 st).st).st
      = (submitExam hs hi sid1 iso1 ms1 mon1 a1 t1 st).st := by
  have h1 := submitExam_fresh_st hs hi sid1 iso1 ms1 mon1 a1 t1 st h
  have hsub : (submitExam hs hi sid1 iso1 ms1 mon1 a1 t1 st).st.isSubmitted
      = true := by
    rw [h1]
  have h2 := submitExam_already hs hi sid2 iso2 ms2 mon2 a2 t2
    (submitExam hs hi sid1 iso1 ms1 mon1 a1 t1 st).st hsub
  refine ⟨submitExam_fresh_result_isSome hs hi sid1 iso1 ms1 mon1 a1 t1 st h,
    submitExam_fresh_finalize hs hi sid1 iso1 ms1 mon1 a1 t1 st h, hsub,
    ?_, ?_, ?_⟩ <;> rw [h2]

/-- Witness for C2: a concrete two-question session submitted twice. -/
theorem c2_submit_idempotent_witness :
    (SessionState.mk ⟨"Ada", "S1", "JS1", "Sci"⟩
        ⟨"E1", ⟨"T", "Sci", "T1", "2026"⟩,
          ⟨some 30, some 50, true, some 3, false, true⟩,
          [⟨"Q1", "A", some 5⟩, ⟨"Q2", "A", some 10⟩]⟩
        0 [("Q1", "A")] 100 false (some ("t0")) none 30).isSubmitted = false ∧
    (submitExam true true ("SUB-X") "iso" 0 initMonState false ("manual")
      (SessionState.mk ⟨"Ada", "S1", "JS1", "Sci"⟩
        ⟨"E1", ⟨"T", "Sci", "T1", "2026"⟩,
          ⟨some 30, some 50, true, some 3, false, true⟩,
          [⟨"Q1", "A", some 5⟩, ⟨"Q2", "A", some 10⟩]⟩
        0 [("Q1", "A")] 100 false (some ("t0")) none 30)).result.isSome = true ∧
    (submitExam true true ("SUB-Y") "iso2" 0 initMonState true ("auto-violation")
      (submitExam true true ("SUB-X") "iso" 0 initMonState false ("manual")
        (SessionState.mk ⟨"Ada", "S1", "JS1", "Sci"⟩
          ⟨"E1", ⟨"T", "Sci", "T1", "2026"⟩,
            ⟨some 30, some 50, true, some 3, false, true⟩,
            [⟨"Q1", "A", some 5⟩, ⟨"Q2", "A", some 10⟩]⟩
          0 [("Q1", "A")] 100 false (some ("t0")) none 30)).st).result = none := by
  have h := c2_submit_idempotent true true ("SUB-X") "SUB-Y" "iso" "iso2" 0 0
    initMonState initMonState false true ("manual") "auto-violation"
    (SessionState.mk ⟨"Ada", "S1", "JS1", "Sci"⟩
      ⟨"E1", ⟨"T", "Sci", "T1", "2026"⟩,
        ⟨some 30, some 50, true, some 3, false, true⟩,
        [⟨"Q1", "A", some 5⟩, ⟨"Q2", "A", some 10⟩]⟩
      0 [("Q1", "A")] 100 false (some ("t0")) none 30) rfl
  exact ⟨rfl, h.1, h.2.2.2.1⟩

/-! ## C4: exception isolation in callback notification -/

/-- C4 fails on the code as stated: with two registered violation
callbacks of which the first throws (`[true, false]`) on a monitor with
threshold 1 and auto-submit enabled, a recorded tab-switch violation
lets the exception propagate out of the handler (`exn = true`), invokes
only 1 of the 2 violation callbacks, and never reaches the auto-submit
trigger even though the threshold is met. -/
theorem c4_callback_isolation_counterexample :
    (logViolation ⟨true, 1, true, false⟩ ⟨[true, false], [false]⟩
        VType.tabSwitch 5000 initMonState).recorded = true ∧
    (logViolation ⟨true, 1, true, false⟩ ⟨[true, false], [false]⟩
        VType.tabSwitch 5000 initMonState).exn = true ∧
    (logViolation ⟨true, 1, true, false⟩ ⟨[true, false], [false]⟩
        VType.tabSwitch 5000 initMonState).vInvoked = 1 ∧
    (Callbacks.mk [true, false] [false]).onViolation.length = 2 ∧
    (logViolation ⟨true, 1, true, false⟩ ⟨[true, false], [false]⟩
        VType.tabSwitch 5000 initMonState).autoFired = false ∧
    (logViolation ⟨true, 1, true, false⟩ ⟨[true, false], [false]⟩
        VType.tabSwitch 5000 initMonState).autoInvoked = 0 := by
  decide

/-- C4 (amended): exceptions thrown by auto-submit callbacks are caught
per-callback — whenever the trigger fires, every registered auto-submit
callback is invoked and no exception escapes; violation callbacks are
invoked without a per-callback catch, so on a recorded violation an
exception propagates iff some violation callback throws, in which case
notification stops after the first thrower and the remediation and
auto-submit steps of the handler are skipped (the violation itself is
already recorded); when no violation callback throws, all of them are
invoked. -/
theorem c4_callback_isolation_amended (cfg : MonConfig) (cbs : Callbacks)
    (v : VType) (now : Nat) (st : MonState) :
    ((logViolation cfg cbs v now st).autoFired = true →
      (logViolation cfg cbs v now st).autoInvoked = cbs.onAutoSubmit.length ∧
      (logViolation cfg cbs v now st).exn = false) ∧
    ((logViolation cfg cbs v now st).recorded = true →
      ((logViolation cfg cbs v now st).exn = true ↔ true ∈ cbs.onViolation)) ∧
    ((logViolation cfg cbs v now st).recorded = true →
      (logViolation cfg cbs v now st).vInvoked =
        (if true ∈ cbs.onViolation then cbs.onViolation.indexOf true + 1
         else cbs.onViolation.length)) ∧
    ((logViolation cfg cbs v now st).exn = true →
      (logViolation cfg cbs v now st).autoFired = false ∧
      (logViolation cfg cbs v now st).autoInvoked = 0 ∧
      (logViolation cfg cbs v now st).reentryScheduled = false) := by
  refine ⟨?_, ?_, ?_, ?_⟩
  · intro h
    obtain ⟨_, hI, hE, _, _⟩ :=
      lv_fire_pos cfg cbs v now st (lv_fired_imp cfg cbs v now st h)
    exact ⟨hI, hE⟩
  · intro h
    rw [lv_recorded] at h
    rw [lv_exn, h]
    simp [notifyNoCatch_exn]
  · intro h
    rw [lv_recorded] at h
    rw [lv_vInvoked, h]
    simp [notifyNoCatch_invoked]
  · intro h
    rw [lv_exn] at h
    simp only [Bool.and_eq_true] at h
    exact lv_exn_branch cfg cbs v now st h.1 h.2

/-- Witness for the amended C4 at the counterexample's configuration:
the exception propagates (iff a callback throws), notification stops
after the first of the two callbacks, and remediation/auto-submit are
skipped. -/
theorem c4_callback_isolation_amended_witness :
    ((logViolation ⟨true, 1, true, false⟩ ⟨[true, false], [false]⟩
        VType.tabSwitch 5000 initMonState).exn = true ↔
      true ∈ (Callbacks.mk [true, false] [false]).onViolation) ∧
    ((logViolation ⟨true, 1, true, false⟩ ⟨[true, false], [false]⟩
        VType.tabSwitch 5000 initMonState).vInvoked =
      (if true ∈ (Callbacks.mk [true, false] [false]).onViolation then
        (Callbacks.mk [true, false] [false]).onViolation.indexOf true + 1
       else (Callbacks.mk [true, false] [false]).onViolation.length)) ∧
    ((logViolation ⟨true, 1, true, false⟩ ⟨[true, false], [false]⟩
        VType.tabSwitch 5000 initMonState).autoFired = false ∧
     (logViolation ⟨true, 1, true, false⟩ ⟨[true, false], [false]⟩
        VType.tabSwitch 5000 initMonState).autoInvoked = 0 ∧
     (logViolation ⟨true, 1, true, false⟩ ⟨[true, false], [false]⟩
        VType.tabSwitch 5000 initMonState).reentryScheduled = false) :=
  ⟨(c4_callback_isolation_amended ⟨true, 1, true, false⟩ ⟨[true, false], [false]⟩
      VType.tabSwitch 5000 initMonState).2.1 (by decide),
   (c4_callback_isolation_amended ⟨true, 1, true, false⟩ ⟨[true, false], [false]⟩
      VType.tabSwitch 5000 initMonState).2.2.1 (by decide),
   (c4_callback_isolation_amended ⟨true, 1, true, false⟩ ⟨[true, false], [false]⟩
      VType.tabSwitch 5000 initMonState).2.2.2 (by decide)⟩

/-! ## C5: per-question scoring -/

/-- C5 fails on the code as stated: a question whose `marks` field is
the negative number `-2`, answered correctly, is scored with
`marks = -2` (via `q.marks || 1`, which only replaces falsy values),
not with the claimed default of 1: the answer outcome awards `-2` and
the exam's total obtainable marks become `-2`. -/
theorem c5_marks_default_counterexample :
    (runScoring [⟨"Q1", "A", some (-2)⟩] [("Q1", "A")]).totalObtainable = -2 ∧
    (runScoring [⟨"Q1", "A", some (-2)⟩] [("Q1", "A")]).score = -2 ∧
    (runScoring [⟨"Q1", "A", some (-2)⟩] [("Q1", "A")]).outcomes
      = [{ questionId := "Q1", selectedOption := some ("A"), isCorrect := true,
           marksAwarded := -2 }] ∧
    jsMarksOr1 (some (-2)) ≠ (1 : ℚ) := by
  have hl : jsAnswerLookup [("Q1", "A")] "Q1" = some ("A") := rfl
  refine ⟨?_, ?_, ?_, ?_⟩
  all_goals norm_num [runScoring, scoreStep, hl, jsMarksOr1]
  all_goals (try (split_ifs <;> simp_all))

/-- C5 (amended): the scoring computation uses `marks = 1` when the
question's `marks` field is unset or equal to 0 (the falsy values of
`q.marks || 1`); any other value — including a negative one — is used
as-is; `isCorrect` compares the selected answer with `correctAnswer`
and `marksAwarded` is `marks` when correct, 0 otherwise; a missing or
null answer increments the unanswered counter and still produces an
answer outcome (never an error). -/
theorem c5_scoring_amended (answers : List (String × String)) (acc : ScoreAcc)
    (q : Question) :
    (q.marks = none ∨ q.marks = some 0 → jsMarksOr1 q.marks = 1) ∧
    (∀ m : ℚ, q.marks = some m → m ≠ 0 → jsMarksOr1 q.marks = m) ∧
    ((scoreStep answers acc q).outcomes = acc.outcomes ++
      [{ questionId := q.questionId,
         selectedOption := jsAnswerLookup answers q.questionId,
         isCorrect := jsAnswerLookup answers q.questionId == some q.correctAnswer,
         marksAwarded := if jsAnswerLookup answers q.questionId == some q.correctAnswer
                         then jsMarksOr1 q.marks else 0 }]) ∧
    ((scoreStep answers acc q).unansweredCount
      = acc.unansweredCount
        + (if jsAnswerLookup answers q.questionId = none then 1 else 0)) ∧
    ((scoreStep answers acc q).totalObtainable
      = acc.totalObtainable + jsMarksOr1 q.marks) := by
  refine ⟨?_, ?_, ?_, ?_, ?_⟩
  · rintro (h | h) <;> simp [jsMarksOr1, h]
  · intro m hm hne
    simp [jsMarksOr1, hm, hne]
  · unfold scoreStep
    dsimp only
    split_ifs <;> simp_all
  · unfold scoreStep
    dsimp only
    split_ifs <;> simp_all
  · unfold scoreStep
    dsimp only
    split_ifs <;> simp_all

/-- Witness for the amended C5: an unset `marks` field defaults to 1,
and an unanswered question is counted as unanswered while its outcome
is still produced. -/
theorem c5_scoring_amended_witness :
    jsMarksOr1 (none : Option ℚ) = 1 ∧
    (scoreStep [] ⟨0, 0, 0, 0, 0, []⟩ ⟨"Q1", "A", none⟩).unansweredCount
      = 0 + (if jsAnswerLookup [] "Q1" = none then 1 else 0) ∧
    (scoreStep [] ⟨0, 0, 0, 0, 0, []⟩ ⟨"Q1", "A", none⟩).outcomes
      = [] ++ [{ questionId := "Q1",
                 selectedOption := jsAnswerLookup [] "Q1",
                 isCorrect := jsAnswerLookup [] "Q1" == some ("A"),
                 marksAwarded := if jsAnswerLookup [] "Q1" == some ("A")
                                 then jsMarksOr1 (none : Option ℚ) else 0 }] :=
  ⟨(c5_scoring_amended [] ⟨0, 0, 0, 0, 0, []⟩ ⟨"Q1", "A", none⟩).1 (Or.inl rfl),
   (c5_scoring_amended [] ⟨0, 0, 0, 0, 0, []⟩ ⟨"Q1", "A", none⟩).2.2.2.1,
   (c5_scoring_amended [] ⟨0, 0, 0, 0, 0, []⟩ ⟨"Q1", "A", none⟩).2.2.1⟩

/-! ## C6: percentage computation -/

theorem scoreStep_total (answers : List (String × String)) (acc : ScoreAcc)
    (q : Question) :
    (scoreStep answers acc q).totalObtainable
      = acc.totalObtainable + jsMarksOr1 q.marks := by
  unfold scoreStep
  dsimp only
  split_ifs <;> simp_all

theorem foldl_total_nonneg (answers : List (String × String)) :
    ∀ (qs : List Question) (acc : ScoreAcc),
      (∀ q ∈ qs, 0 ≤ jsMarksOr1 q.marks) → 0 ≤ acc.totalObtainable →
      0 ≤ (qs.foldl (scoreStep answers) acc).totalObtainable := by
  intro qs
  induction qs with
  | nil => intro acc _ h0; simpa using h0
  | cons q qs ih =>
    intro acc hM h0
    simp only [List.foldl_cons]
    refine ih _ (fun p hp => hM p (List.mem_cons_of_mem _ hp)) ?_
    rw [scoreStep_total]
    exact add_nonneg h0 (hM q (List.mem_cons_self _ _))

theorem runScoring_total_nonneg (questions : List Question)
    (answers : List (String × String))
    (hM : ∀ q ∈ questions, 0 ≤ jsMarksOr1 q.marks) :
    0 ≤ (runScoring questions answers).totalObtainable := by
  unfold runScoring
  exact foldl_total_nonneg answers questions _ hM (by norm_num)

theorem submitExam_fields (hs hi : Bool) (sid iso : String) (ms : Nat)
    (mon : MonState) (a : Bool) (t : String) (st : SessionState)
    (h : st.isSubmitted = false) :
    (submitExam hs hi sid iso ms mon a t st).result.map
      (fun r => (r.scoring.obtainedMarks, r.scoring.totalMarks, r.scoring.percentage))
    = some ((runScoring st.exam.questions st.answers).score,
            (runScoring st.exam.questions st.answers).totalObtainable,
            if 0 < (runScoring st.exam.questions st.answers).totalObtainable then
              (jsRound ((runScoring st.exam.questions st.answers).score /
                (runScoring st.exam.questions st.answers).totalObtainable * 10000) : ℚ) / 100
            else 0) := by
  simp [submitExam, h]

/-- Scenario A's exam: two questions worth 5 and 10 marks, passMark 50. -/
def examA : Exam :=
  { examId := "EXAM-A",
    metadata := ⟨"Algebra Exam", "Math", "T1", "2026"⟩,
    settings :=
      { duration := some 30, passMark := some 50, autoSubmitOnViolation := true,
        violationThreshold := some 3, strictMode := false, showResults := true },
    questions := [⟨"Q1", "A", some 5⟩, ⟨"Q2", "A", some 10⟩] }

/-- Scenario A's session: Q1 answered correctly, Q2 wrongly. -/
def sessionA : SessionState :=
  { student := ⟨"Ada", "S1", "JS1", "Math"⟩, exam := examA, currentQIndex := 0,
    answers := [("Q1", "A"), ("Q2", "B")], timeLeft := 100, isSubmitted := false,
    startedAt := some ("t0"), submittedAt := none, durationAllowed := 30 }

/-- C6: for every exam whose per-question marks are non-negative (as the
data model requires) and every answer map, the Result's percentage
equals `round(obtainedMarks / totalMarks × 10000) / 100`, and equals 0
when `totalMarks = 0`; in particular Scenario A (questions worth 5 and
10 marks, passMark 50, Q1 correct and Q2 wrong) yields
`obtainedMarks = 5`, `totalMarks = 15`, `percentage = 33.33`,
`passed = false`. -/
theorem c6_percentage_formula :
    (∀ (hs hi : Bool) (sid iso : String) (ms : Nat) (mon : MonState) (a : Bool)
      (t : String) (st : SessionState),
      (∀ q ∈ st.exam.questions, 0 ≤ jsMarksOr1 q.marks) →
      (submitExam hs hi sid iso ms mon a t st).result.map
          (fun r => r.scoring.percentage)
        = (submitExam hs hi sid iso ms mon a t st).result.map
            (fun r => if r.scoring.totalMarks = 0 then 0
              else (jsRound (r.scoring.obtainedMarks / r.scoring.totalMarks * 10000) : ℚ)
                / 100)) ∧
    ((submitExam true true ("SUB-X") "iso" 0 initMonState false ("manual")
        sessionA).result.map
      (fun r => (r.scoring.obtainedMarks, r.scoring.totalMarks,
                 r.scoring.percentage, r.scoring.passed)))
      = some (5, 15, 3333 / 100, false) := by
  constructor
  · intro hs hi sid iso ms mon a t st hM
    cases hsb : st.isSubmitted
    · have hf := submitExam_fields hs hi sid iso ms mon a t st hsb
      cases hres : (submitExam hs hi sid iso ms mon a t st).result with
      | none => simp
      | some r =>
        rw [hres] at hf
        simp only [Option.map_some', Option.some.injEq, Prod.mk.injEq] at hf
        obtain ⟨hOb, hTm, hPc⟩ := hf
        simp only [Option.map_some', Option.some.injEq]
        rw [hPc, hOb, hTm]
        have h0 := runScoring_total_nonneg st.exam.questions st.answers hM
        by_cases hT : (runScoring st.exam.questions st.answers).totalObtainable = 0
        · simp [hT]
        · have hlt : 0 < (runScoring st.exam.questions st.answers).totalObtainable :=
            lt_of_le_of_ne h0 (Ne.symm hT)
          rw [if_pos hlt, if_neg hT]
    · rw [submitExam_already hs hi sid iso ms mon a t st hsb]
      simp
  · have h1 : jsAnswerLookup [("Q1", "A"), ("Q2", "B")] "Q1" = some ("A") := rfl
    have h2 : jsAnswerLookup [("Q1", "A"), ("Q2", "B")] "Q2" = some ("B") := rfl
    simp [submitExam, sessionA, examA, runScoring, scoreStep, h1, h2,
      jsMarksOr1, jsPassMarkOr50, jsRound]
    norm_num

/-- Witness for C6 at Scenario A's exam: the marks are non-negative and
the percentage field satisfies the claimed formula. -/
theorem c6_percentage_formula_witness :
    (∀ q ∈ sessionA.exam.questions, 0 ≤ jsMarksOr1 q.marks) ∧
    ((submitExam true true ("SUB-X") "iso" 0 initMonState false ("manual")
        sessionA).result.map (fun r => r.scoring.percentage)
      = (submitExam true true ("SUB-X") "iso" 0 initMonState false ("manual")
          sessionA).result.map
          (fun r => if r.scoring.totalMarks = 0 then 0
            else (jsRound (r.scoring.obtainedMarks / r.scoring.totalMarks * 10000) : ℚ)
              / 100)) := by
  have hM : ∀ q ∈ sessionA.exam.questions, 0 ≤ jsMarksOr1 q.marks := by
    intro q hq
    simp [sessionA, examA] at hq
    rcases hq with hq | hq <;> subst hq <;> norm_num [jsMarksOr1]
  exact ⟨hM, c6_percentage_formula.1 true true ("SUB-X") "iso" 0 initMonState
    false ("manual") sessionA hM⟩

/-! ## C8: snapshot restore rejection -/

/-- C8: any persisted snapshot payload lacking an exam id or a
non-empty (after trimming) student name is rejected by
`initResumeDetection`: the decision is to discard, the stored snapshot
slot is cleared, and no resume of session state is offered. -/
theorem c8_restore_rejects (p : RawPayload)
    (h : hasExamId p = false ∨ hasTrimmedName p = false) :
    initResumeDetection (some (some p)) = ResumeAction.discardCorrupted ∧
    storageCleared (initResumeDetection (some (some p))) = true ∧
    resumeOffered (initResumeDetection (some (some p))) = false := by
  have heq : isValidSession p = (hasExamId p && hasTrimmedName p) := rfl
  have hv : isValidSession p = false := by
    rw [heq]
    rcases h with h | h <;> simp [h]
  refine ⟨?_, ?_, ?_⟩ <;> simp [initResumeDetection, hv, storageCleared, resumeOffered]

/-- Witness for C8: a payload with a student name but no `exam` member
is discarded. -/
theorem c8_restore_rejects_witness :
    (hasExamId ⟨none, some ⟨some ("Ada")⟩⟩ = false ∨
      hasTrimmedName ⟨none, some ⟨some ("Ada")⟩⟩ = false) ∧
    initResumeDetection (some (some ⟨none, some ⟨some ("Ada")⟩⟩))
      = ResumeAction.discardCorrupted ∧
    storageCleared (initResumeDetection (some (some ⟨none, some ⟨some ("Ada")⟩⟩)))
      = true :=
  ⟨Or.inl (by decide),
   (c8_restore_rejects ⟨none, some ⟨some ("Ada")⟩⟩ (Or.inl (by decide))).1,
   (c8_restore_rejects ⟨none, some ⟨some ("Ada")⟩⟩ (Or.inl (by decide))).2.1⟩

/-! ## C9: retry exhaustion and local fallback -/

theorem runAttempts_all_fail (fetchResult : Nat → Except String Unit)
    (hfail : ∀ i, ∃ e, fetchResult i = Except.error e) :
    ∀ (remaining attempt : Nat) (lastError : Option String),
      (SheetsSubmitter.runAttempts fetchResult remaining attempt lastError).1
        = false ∧
      (1 ≤ remaining →
        ∃ m, (SheetsSubmitter.runAttempts fetchResult remaining attempt
          lastError).2 = some m) := by
  intro remaining
  induction remaining with
  | zero =>
    intro attempt lastError
    exact ⟨rfl, fun h => absurd h (by omega)⟩
  | succ n ih =>
    intro attempt lastError
    obtain ⟨e, he⟩ := hfail attempt
    simp only [SheetsSubmitter.runAttempts, he]
    cases n with
    | zero => exact ⟨rfl, fun _ => ⟨e, rfl⟩⟩
    | succ m =>
      exact ⟨(ih (attempt + 1) (some e)).1,
        fun _ => (ih (attempt + 1) (some e)).2 (by omega)⟩

/-- C9: with a configured webhook, when every delivery attempt fails
observably and the retry bound (≥ 1) is exhausted, `submit` resolves
with `success = false` and a reason of the shape
`Network error after N attempts: …`, and the session's response handler
then persists the Result to local storage under the key
`exam_result_<submissionId>` (which contains the submissionId);
moreover `submit` always resolves with an outcome carrying the
Result's submissionId, whatever the configuration and attempt
outcomes. -/
theorem c9_retry_exhaustion_fallback (cfg : SheetsSubmitter.SubmitterConfig)
    (fetchResult : Nat → Except String Unit) (r : ResultObject) (nowIso : String)
    (hurl : ¬cfg.webhookUrl = "") (hmax : 1 ≤ cfg.maxRetries)
    (hfail : ∀ i, ∃ e, fetchResult i = Except.error e) :
    (SheetsSubmitter.submit cfg fetchResult r.submissionId nowIso).success
      = false ∧
    (∃ msg, (SheetsSubmitter.submit cfg fetchResult r.submissionId nowIso).error
      = some ("Network error after (" ++ toString cfg.maxRetries ++
        ") attempts: " ++ msg)) ∧
    handleSheetsResponse
        (SheetsSubmitter.submit cfg fetchResult r.submissionId nowIso) r
      = [("exam_result_" ++ r.submissionId, r)] ∧
    (∃ s, "exam_result_" ++ r.submissionId = s ++ r.submissionId) ∧
    (∀ (cfg2 : SheetsSubmitter.SubmitterConfig)
      (f2 : Nat → Except String Unit) (iso2 : String),
      (SheetsSubmitter.submit cfg2 f2 r.submissionId iso2).submissionId
        = r.submissionId) := by
  obtain ⟨hfalse, hsome⟩ := runAttempts_all_fail fetchResult hfail cfg.maxRetries 1 none
  obtain ⟨m, hm⟩ := hsome hmax
  have hpair : SheetsSubmitter.runAttempts fetchResult cfg.maxRetries 1 none
      = (false, some m) := by
    rcases hq : SheetsSubmitter.runAttempts fetchResult cfg.maxRetries 1 none with ⟨b, le⟩
    rw [hq] at hfalse hm
    simp only at hfalse hm
    rw [hfalse, hm]
  have hsubmit : SheetsSubmitter.submit cfg fetchResult r.submissionId nowIso =
      { success := false, submissionId := r.submissionId, timestamp := nowIso,
        error := some ("Network error after (" ++ toString cfg.maxRetries ++
          ") attempts: " ++ m) } := by
    simp only [SheetsSubmitter.submit, if_neg hurl, hpair, Option.getD_some]
  refine ⟨by rw [hsubmit], ⟨m, by rw [hsubmit]⟩,
    by rw [hsubmit]; simp [handleSheetsResponse], ⟨"exam_result_", rfl⟩, ?_⟩
  intro cfg2 f2 iso2
  simp only [SheetsSubmitter.submit]
  split
  · rfl
  · split <;> rfl

/-- A minimal concrete Result document used to witness C9. -/
def resultC9 : ResultObject :=
  { submissionId := "SUB-20261012-ABC123", version := "1.0.0",
    student := ⟨"Ada", "S1", "JS1"⟩,
    exam := ⟨"E1", "T", "Sci", "T1", "2026"⟩,
    answers := [], scoring := ⟨0, 0, 0, 0, 0, 0, 0, 0, false⟩,
    timing := ⟨none, none, 0, 0⟩, submissionType := "manual",
    clientTimestamp := "iso", violations := 0, violationLog := [] }

/-- Witness for C9: three attempts all throwing `boom` against a
configured webhook end in a failed outcome persisted locally. -/
theorem c9_retry_exhaustion_fallback_witness :
    (¬(SheetsSubmitter.SubmitterConfig.mk ("http://x") 3 2000).webhookUrl = "") ∧
    (1 ≤ (SheetsSubmitter.SubmitterConfig.mk ("http://x") 3 2000).maxRetries) ∧
    (SheetsSubmitter.submit ⟨"http://x", 3, 2000⟩
        (fun _ => Except.error ("boom")) resultC9.submissionId ("iso")).success
      = false ∧
    handleSheetsResponse
        (SheetsSubmitter.submit ⟨"http://x", 3, 2000⟩
          (fun _ => Except.error ("boom")) resultC9.submissionId ("iso")) resultC9
      = [("exam_result_" ++ resultC9.submissionId, resultC9)] :=
  ⟨by decide, by decide,
   (c9_retry_exhaustion_fallback ⟨"http://x", 3, 2000⟩
     (fun _ => Except.error ("boom")) resultC9 ("iso") (by decide) (by decide)
     (fun _ => ⟨"boom", rfl⟩)).1,
   (c9_retry_exhaustion_fallback ⟨"http://x", 3, 2000⟩
     (fun _ => Except.error ("boom")) resultC9 ("iso") (by decide) (by decide)
     (fun _ => ⟨"boom", rfl⟩)).2.2.1⟩

end SchoolCBT


namespace SchoolCBT

theorem digitChar_isDigit (k : Nat) (h : k < 10) :
    (Nat.digitChar k).isDigit = true := by
  interval_cases k <;> decide

theorem decDigitsAux_fuel : ∀ (f1 f2 n : Nat), n < f1 → n < f2 →
    decDigitsAux f1 n = decDigitsAux f2 n := by
  intro f1
  induction f1 with
  | zero => intro f2 n h1 h2; omega
  | succ f ih =>
    intro f2 n h1 h2
    cases f2 with
    | zero => omega
    | succ g =>
      simp only [decDigitsAux]
      split
      · rfl
      · rename_i h10
        rw [ih g (n / 10) (by omega) (by omega)]

theorem decDigits_base (n : Nat) (h : n < 10) :
    decDigits n = [Nat.digitChar n] := by
  rw [decDigits]
  simp [decDigitsAux, h]

theorem decDigits_step (n : Nat) (h : 10 ≤ n) :
    decDigits n = decDigits (n / 10) ++ [Nat.digitChar (n % 10)] := by
  rw [decDigits, decDigits]
  have h1 : decDigitsAux (n + 1) n =
      decDigitsAux n (n / 10) ++ [Nat.digitChar (n % 10)] := by
    simp only [decDigitsAux]
    rw [if_neg (by omega)]
  rw [h1, decDigitsAux_fuel n (n / 10 + 1) (n / 10) (by omega) (by omega)]

theorem decDigits_all_digit : ∀ n, ∀ c ∈ decDigits n, c.isDigit = true := by
  intro n
  induction n using Nat.strong_induction_on with
  | _ n ih =>
    by_cases h : n < 10
    · rw [decDigits_base n h]
      intro c hc
      simp at hc
      subst hc
      exact digitChar_isDigit n h
    · rw [decDigits_step n (by omega)]
      intro c hc
      rw [List.mem_append] at hc
      rcases hc with hc | hc
      · exact ih (n / 10) (by omega) c hc
      · simp at hc
        subst hc
        exact digitChar_isDigit (n % 10) (by omega)

theorem string_length_mk (l : List Char) : (String.mk l).length = l.length := rfl

theorem string_data_append (s t : String) : (s ++ t).data = s.data ++ t.data := rfl

theorem string_length_append (s t : String) :
    (s ++ t).length = s.length + t.length := by
  rw [show (s ++ t).length = (s ++ t).data.length from rfl, string_data_append,
    List.length_append]
  rfl

theorem decDigits_length_step (n : Nat) (h : 10 ≤ n) :
    (decDigits n).length = (decDigits (n / 10)).length + 1 := by
  rw [decDigits_step n h]
  simp

theorem decDigits_len4 (y : Nat) (h1 : 1000 ≤ y) (h2 : y ≤ 9999) :
    (decDigits y).length = 4 := by
  have e1 := decDigits_length_step y (by omega)
  have e2 := decDigits_length_step (y / 10) (by omega)
  have e3 := decDigits_length_step (y / 10 / 10) (by omega)
  have e4 : (decDigits (y / 10 / 10 / 10)).length = 1 := by
    rw [decDigits_base _ (by omega)]
    rfl
  omega

theorem jsNatToString_year (y : Nat) (h1 : 1000 ≤ y) (h2 : y ≤ 9999) :
    (jsNatToString y).length = 4 ∧
    ∀ c ∈ (jsNatToString y).data, c.isDigit = true := by
  constructor
  · rw [jsNatToString, string_length_mk]
    exact decDigits_len4 y h1 h2
  · intro c hc
    exact decDigits_all_digit y c hc

theorem pad2_spec (k : Nat) (h1 : 1 ≤ k) (h2 : k ≤ 31) :
    (padStart2 (jsNatToString k)).length = 2 ∧
    ∀ c ∈ (padStart2 (jsNatToString k)).data, c.isDigit = true := by
  interval_cases k <;> exact ⟨by decide, by decide⟩

theorem datePart_spec (y m d : Nat) (hy1 : 1000 ≤ y) (hy2 : y ≤ 9999)
    (hm : m ≤ 11) (hd1 : 1 ≤ d) (hd2 : d ≤ 31) :
    (datePart y m d).length = 8 ∧
    ∀ c ∈ (datePart y m d).data, c.isDigit = true := by
  obtain ⟨hyl, hyd⟩ := jsNatToString_year y hy1 hy2
  obtain ⟨hml, hmd⟩ := pad2_spec (m + 1) (by omega) (by omega)
  obtain ⟨hdl, hdd⟩ := pad2_spec d hd1 hd2
  constructor
  · rw [datePart, string_length_append, string_length_append, hyl, hml, hdl]
  · intro c hc
    rw [datePart] at hc
    rw [string_data_append, string_data_append] at hc
    simp only [List.mem_append] at hc
    rcases hc with (hc | hc) | hc
    · exact hyd c hc
    · exact hmd c hc
    · exact hdd c hc

theorem randIndex_lt (rs : Nat → ℚ) (i : Nat) (h0 : 0 ≤ rs i) (h1 : rs i < 1) :
    randIndex rs i < 36 := by
  rw [randIndex]
  have hm : rs i * 36 < 36 := by nlinarith
  have hfl : ⌊rs i * 36⌋ < 36 := by
    rw [Int.floor_lt]
    exact_mod_cast hm
  have hge : (0 : ℤ) ≤ ⌊rs i * 36⌋ := Int.floor_nonneg.2 (by positivity)
  omega

theorem jsCharAt_lt (i : Nat) (h : i < 36) :
    ∃ c, jsCharAt subIdChars i = String.mk [c] ∧
      (('A' ≤ c ∧ c ≤ 'Z') ∨ ('0' ≤ c ∧ c ≤ '9')) := by
  have hlen : subIdChars.data.length = 36 := by decide
  have hi : i < subIdChars.data.length := by omega
  have hget : subIdChars.data[i]? = some subIdChars.data[i] :=
    List.getElem?_eq_getElem hi
  refine ⟨subIdChars.data[i], ?_, ?_⟩
  · rw [jsCharAt, hget]
  · have hmem : subIdChars.data[i] ∈ subIdChars.data :=
      List.getElem_mem hi
    have hall : ∀ c ∈ subIdChars.data,
        ('A' ≤ c ∧ c ≤ 'Z') ∨ ('0' ≤ c ∧ c ≤ '9') := by decide
    exact hall _ hmem

theorem randomPart_spec (rs : Nat → ℚ) (hr : ∀ i, 0 ≤ rs i ∧ rs i < 1) :
    (randomPart rs).length = 6 ∧
    ∀ c ∈ (randomPart rs).data,
      ('A' ≤ c ∧ c ≤ 'Z') ∨ ('0' ≤ c ∧ c ≤ '9') := by
  obtain ⟨c0, hc0, hp0⟩ := jsCharAt_lt (randIndex rs 0)
    (randIndex_lt rs 0 (hr 0).1 (hr 0).2)
  obtain ⟨c1, hc1, hp1⟩ := jsCharAt_lt (randIndex rs 1)
    (randIndex_lt rs 1 (hr 1).1 (hr 1).2)
  obtain ⟨c2, hc2, hp2⟩ := jsCharAt_lt (randIndex rs 2)
    (randIndex_lt rs 2 (hr 2).1 (hr 2).2)
  obtain ⟨c3, hc3, hp3⟩ := jsCharAt_lt (randIndex rs 3)
    (randIndex_lt rs 3 (hr 3).1 (hr 3).2)
  obtain ⟨c4, hc4, hp4⟩ := jsCharAt_lt (randIndex rs 4)
    (randIndex_lt rs 4 (hr 4).1 (hr 4).2)
  obtain ⟨c5, hc5, hp5⟩ := jsCharAt_lt (randIndex rs 5)
    (randIndex_lt rs 5 (hr 5).1 (hr 5).2)
  have hexp : randomPart rs
      = "" ++ jsCharAt subIdChars (randIndex rs 0)
          ++ jsCharAt subIdChars (randIndex rs 1)
          ++ jsCharAt subIdChars (randIndex rs 2)
          ++ jsCharAt subIdChars (randIndex rs 3)
          ++ jsCharAt subIdChars (randIndex rs 4)
          ++ jsCharAt subIdChars (randIndex rs 5) := rfl
  have hmk : randomPart rs = String.mk [c0, c1, c2, c3, c4, c5] := by
    rw [hexp, hc0, hc1, hc2, hc3, hc4, hc5]
    rfl
  rw [hmk]
  constructor
  · rfl
  · intro c hc
    simp only [String.mk] at hc
    simp at hc
    rcases hc with hc | hc | hc | hc | hc | hc <;> subst hc <;> assumption

/-- C10: under the date ranges of `new Date()` (4-digit year, month
index 0–11, day 1–31) and `Math.random() ∈ [0, 1)`, every value of
`generateSubmissionId` is a 19-character string `SUB-` ++ datePart ++
`-` ++ randomPart, where the datePart is the current date as 8 decimal
digits (YYYYMMDD) and the randomPart is 6 characters drawn from
`A`–`Z` and `0`–`9`. -/
theorem c10_submission_id_format (y m d : Nat) (rs : Nat → ℚ)
    (hy1 : 1000 ≤ y) (hy2 : y ≤ 9999) (hm : m ≤ 11) (hd1 : 1 ≤ d) (hd2 : d ≤ 31)
    (hr : ∀ i, 0 ≤ rs i ∧ rs i < 1) :
    (generateSubmissionId y m d rs).length = 19 ∧
    generateSubmissionId y m d rs
      = "SUB-" ++ datePart y m d ++ "-" ++ randomPart rs ∧
    (datePart y m d).length = 8 ∧
    (∀ c ∈ (datePart y m d).data, c.isDigit = true) ∧
    (randomPart rs).length = 6 ∧
    (∀ c ∈ (randomPart rs).data,
      ('A' ≤ c ∧ c ≤ 'Z') ∨ ('0' ≤ c ∧ c ≤ '9')) := by
  obtain ⟨hdl, hdd⟩ := datePart_spec y m d hy1 hy2 hm hd1 hd2
  obtain ⟨hrl, hrd⟩ := randomPart_spec rs hr
  refine ⟨?_, rfl, hdl, hdd, hrl, hrd⟩
  rw [generateSubmissionId, string_length_append, string_length_append,
    string_length_append, hdl, hrl]
  rfl

/-- Witness for C10 on 2026-10-12 (month index 9) with a constant-zero
random stream. -/
theorem c10_submission_id_format_witness :
    ((1000 ≤ 2026) ∧ (2026 ≤ 9999) ∧ (9 ≤ 11) ∧ (1 ≤ 12) ∧ (12 ≤ 31) ∧
      (∀ i : Nat, 0 ≤ (fun _ : Nat => (0 : ℚ)) i ∧
        (fun _ : Nat => (0 : ℚ)) i < 1)) ∧
    ((generateSubmissionId 2026 9 12 (fun _ => 0)).length = 19 ∧
     generateSubmissionId 2026 9 12 (fun _ => 0)
       = "SUB-" ++ datePart 2026 9 12 ++ "-" ++ randomPart (fun _ => 0) ∧
     (datePart 2026 9 12).length = 8 ∧
     (∀ c ∈ (datePart 2026 9 12).data, c.isDigit = true) ∧
     (randomPart (fun _ => 0)).length = 6 ∧
     (∀ c ∈ (randomPart (fun _ => 0)).data,
       ('A' ≤ c ∧ c ≤ 'Z') ∨ ('0' ≤ c ∧ c ≤ '9'))) :=
  ⟨⟨by norm_num, by norm_num, by norm_num, by norm_num, by norm_num,
    fun i => ⟨le_refl 0, by norm_num⟩⟩,
   c10_submission_id_format 2026 9 12 (fun _ => 0) (by norm_num) (by norm_num)
     (by norm_num) (by norm_num) (by norm_num)
     (fun i => ⟨le_refl 0, by norm_num⟩)⟩

end SchoolCBT
